import Mathlib

/-!
# ModernOpenGL: call-trace embedding of the three tutorial programs

`HelloTriangle.cpp`, `ShadersPart1.cpp` and `texturepart1.cpp` are straight-line
programs followed by one render loop.  Each `main` is embedded as a function from
the results of its external calls (`Env`) to the sequence of external calls it
issues (`Run.trace`) and its exit code (`Run.exit`).

Handles are identified by the program variable that holds them: every such
variable is assigned exactly once in the source.
-/

namespace ModernOpenGL

/-- External functions called by the three programs.  `cout` is a
`std::cout << ... ` statement, `Shader` the constructor of `ourShader` and
`Shader_use` the call `ourShader.use()`. -/
inductive Fn where
  | glfwInit | glfwWindowHint | glfwCreateWindow | glfwTerminate
  | glfwMakeContextCurrent | glfwSetFramebufferSizeCallback | gladLoadGLLoader
  | glCreateShader | glShaderSource | glCompileShader | glGetShaderiv
  | glGetShaderInfoLog | glCreateProgram | glAttachShader | glLinkProgram
  | glGetProgramiv | glGetProgramInfoLog | glDeleteShader
  | glGenVertexArrays | glGenBuffers | glBindVertexArray | glBindBuffer
  | glBufferData | glVertexAttribPointer | glEnableVertexAttribArray
  | glfwWindowShouldClose | glClearColor | glClear | glUseProgram
  | glDrawElements | glDrawArrays | glfwSwapBuffers | glfwPollEvents
  | glDeleteVertexArrays | glDeleteBuffers | glDeleteProgram
  | glfwGetKey | glfwSetWindowShouldClose | glViewport
  | glfwGetTime | glGetUniformLocation | glUniform4f
  | glGenTextures | glBindTexture | glTexParameteri | glTexImage2D
  | glGenerateMipmap | stbi_load | stbi_image_free
  | Shader | Shader_use | cout
  deriving DecidableEq, Repr

/-- Program variables, arrays and functions whose value or address is passed to
an external call. -/
inductive Var where
  | window | framebuffer_size_callback | glfwGetProcAddress
  | vertexShaderSource | fragmentShaderSource
  | vertexShader | fragmentShader | shaderProgram
  | success | infoLog
  | vertices | indices | VBO | VAO | EBO
  | texture | width | height | nrChannels | data
  | ourShader
  deriving DecidableEq, Repr

/-- Named constants of GLFW and OpenGL that occur as arguments. -/
inductive Const where
  | GLFW_CONTEXT_VERSION_MAJOR | GLFW_CONTEXT_VERSION_MINOR
  | GLFW_OPENGL_PROFILE | GLFW_OPENGL_CORE_PROFILE
  | GLFW_OPENGL_FORWARD_COMPAT | GL_TRUE | GL_FALSE
  | GLFW_KEY_ESCAPE
  | GL_VERTEX_SHADER | GL_FRAGMENT_SHADER | GL_COMPILE_STATUS | GL_LINK_STATUS
  | GL_ARRAY_BUFFER | GL_ELEMENT_ARRAY_BUFFER | GL_STATIC_DRAW
  | GL_FLOAT | GL_UNSIGNED_INT | GL_UNSIGNED_BYTE
  | GL_COLOR_BUFFER_BIT | GL_TRIANGLES
  | GL_TEXTURE_2D | GL_TEXTURE_WRAP_S | GL_TEXTURE_WRAP_T | GL_REPEAT
  | GL_TEXTURE_MIN_FILTER | GL_TEXTURE_MAG_FILTER | GL_LINEAR | GL_RGB
  deriving DecidableEq, Repr

/-- Arguments of an external call. -/
inductive Arg where
  /-- the value held in a program variable (a handle or a pointer) -/
  | val (v : Var)
  /-- the address `&v`, or an array or function passed as a pointer -/
  | addr (v : Var)
  /-- an integer value -/
  | int (n : Int)
  /-- a named constant -/
  | const (c : Const)
  /-- a float literal `num / den`, e.g. `0.2f` is `flt 2 10` -/
  | flt (num : Int) (den : Nat)
  /-- the value `sin(timeValue) / 2.0f + 0.5f` for the clock reading `timeValue` -/
  | green (timeValue : Nat)
  /-- a string literal, or the text held in a character buffer -/
  | str (s : String)
  /-- the null pointer `NULL` -/
  | null
  /-- the literal `true` -/
  | true
  /-- the manipulator `std::endl` -/
  | endl
  deriving DecidableEq, Repr

/-- One external call with its arguments. -/
structure Call where
  fn : Fn
  args : List Arg
  deriving DecidableEq, Repr

/-- What the outside world answers in one iteration of the render loop. -/
structure Frame where
  /-- whether `glfwGetKey(window, GLFW_KEY_ESCAPE) == GLFW_PRESS` in this iteration -/
  escPressed : Bool
  /-- result of `glfwGetTime()` (read by ShadersPart1 only) -/
  timeValue : Nat
  /-- result of `glGetUniformLocation(shaderProgram, "ourColor")` (ShadersPart1 only) -/
  uniformLocation : Int
  /-- a framebuffer resize delivered by `glfwPollEvents`, with the new size -/
  resize : Option (Int × Int)
  /-- a window-close request delivered by `glfwPollEvents` -/
  closeRequested : Bool
  deriving DecidableEq, Repr

/-- A successful result of `stbi_load`: the values stored into `width`, `height`
and `nrChannels`. -/
structure Image where
  width : Int
  height : Int
  nrChannels : Int
  deriving DecidableEq, Repr

/-- Results of the external calls of one run. -/
structure Env where
  /-- compiled with `__APPLE__` defined -/
  apple : Bool
  /-- whether `glfwCreateWindow` returned a non-NULL window -/
  windowOk : Bool
  /-- whether `gladLoadGLLoader` returns nonzero -/
  gladOk : Bool
  /-- value of `success` after `glGetShaderiv(vertexShader, GL_COMPILE_STATUS, &success)` -/
  vertexOk : Bool
  /-- info log of the vertex shader object -/
  vertexLog : String
  /-- value of `success` after `glGetShaderiv(fragmentShader, GL_COMPILE_STATUS, &success)` -/
  fragmentOk : Bool
  /-- info log of the fragment shader object -/
  fragmentLog : String
  /-- value of `success` after `glGetProgramiv(shaderProgram, GL_LINK_STATUS, &success)` -/
  linkOk : Bool
  /-- info log of the program object -/
  linkLog : String
  /-- result of `stbi_load`; `none` is a NULL result -/
  image : Option Image
  /-- answers of the outside world, one per loop iteration -/
  frames : List Frame
  deriving Repr

/-- Outcome of a run: the calls issued, and the value returned by `main`
(`none` when the frames supplied ran out while the loop was still running). -/
structure Run where
  trace : List Call
  exit : Option Int
  deriving DecidableEq, Repr

/-- Screen width constant of the source. -/
def SCR_WIDTH : Int := 800
/-- Screen height constant of the source. -/
def SCR_HEIGHT : Int := 600

/-- Size of a `float` in bytes. -/
def sizeofFloat : Int := 4
/-- Size of an `unsigned int` in bytes. -/
def sizeofUInt : Int := 4

/-- Text left in `char infoLog[512]` by `glGet*InfoLog(_, 512, NULL, infoLog)`:
at most 511 characters of the log. -/
def infoLogText (log : String) : String := ⟨log.data.take (512 - 1)⟩

/-- The four `glfwInit` / `glfwWindowHint` lines that open every `main`, with the
`__APPLE__` hint when compiled in. -/
def glfwSetup (apple : Bool) : List Call :=
  [ ⟨.glfwInit, []⟩,
    ⟨.glfwWindowHint, [.const .GLFW_CONTEXT_VERSION_MAJOR, .int 3]⟩,
    ⟨.glfwWindowHint, [.const .GLFW_CONTEXT_VERSION_MINOR, .int 3]⟩,
    ⟨.glfwWindowHint, [.const .GLFW_OPENGL_PROFILE, .const .GLFW_OPENGL_CORE_PROFILE]⟩ ]
  ++ (if apple then
        [⟨.glfwWindowHint, [.const .GLFW_OPENGL_FORWARD_COMPAT, .const .GL_TRUE]⟩]
      else [])

/-- The call `glfwCreateWindow(SCR_WIDTH, SCR_HEIGHT, "LearnOpenGL", NULL, NULL)`. -/
def createWindow : Call :=
  ⟨.glfwCreateWindow, [.int SCR_WIDTH, .int SCR_HEIGHT, .str "LearnOpenGL", .null, .null]⟩

/-- The window-creation failure branch: message, `glfwTerminate()`. -/
def windowFailed : List Call :=
  [ ⟨.cout, [.str "Failed to create GLFW window", .endl]⟩,
    ⟨.glfwTerminate, []⟩ ]

/-- The two calls after a successful window creation. -/
def makeCurrent : List Call :=
  [ ⟨.glfwMakeContextCurrent, [.val .window]⟩,
    ⟨.glfwSetFramebufferSizeCallback, [.val .window, .addr .framebuffer_size_callback]⟩ ]

/-- The function `processInput` (identical in the three files): the calls it
issues and the should-close flag of the window afterwards. -/
def processInput (escPressed : Bool) (shouldClose : Bool) : List Call × Bool :=
  if escPressed then
    ([ ⟨.glfwGetKey, [.val .window, .const .GLFW_KEY_ESCAPE]⟩,
       ⟨.glfwSetWindowShouldClose, [.val .window, .true]⟩ ], true)
  else
    ([ ⟨.glfwGetKey, [.val .window, .const .GLFW_KEY_ESCAPE]⟩ ], shouldClose)

/-- The function `framebuffer_size_callback` (identical in the three files). -/
def framebuffer_size_callback (width height : Int) : List Call :=
  [ ⟨.glViewport, [.int 0, .int 0, .int width, .int height]⟩ ]

/-- The call `glfwPollEvents()` together with the callback it runs when a resize
is pending. -/
def pollEvents (f : Frame) : List Call :=
  ⟨.glfwPollEvents, []⟩ ::
    (match f.resize with
     | some (w, h) => framebuffer_size_callback w h
     | none => [])

/-- Lines 68-75 (122-128): creation, source, compile and status query of the
vertex stage. -/
def compileVertex : List Call :=
  [ ⟨.glCreateShader, [.const .GL_VERTEX_SHADER]⟩,
    ⟨.glShaderSource, [.val .vertexShader, .int 1, .addr .vertexShaderSource, .null]⟩,
    ⟨.glCompileShader, [.val .vertexShader]⟩,
    ⟨.glGetShaderiv, [.val .vertexShader, .const .GL_COMPILE_STATUS, .addr .success]⟩ ]

/-- Lines 76-80 (129-133): the `if (!success)` block after the vertex compile. -/
def vertexDiagnostic (env : Env) : List Call :=
  if !env.vertexOk then
    [ ⟨.glGetShaderInfoLog, [.val .vertexShader, .int 512, .null, .addr .infoLog]⟩,
      ⟨.cout, [.str "ERROR::SHADER::VERTEX::COMPILATION_FAILED\n",
               .str (infoLogText env.vertexLog), .endl]⟩ ]
  else []

/-- Lines 82-86 (135-139): creation, source, compile and status query of the
fragment stage. -/
def compileFragment : List Call :=
  [ ⟨.glCreateShader, [.const .GL_FRAGMENT_SHADER]⟩,
    ⟨.glShaderSource, [.val .fragmentShader, .int 1, .addr .fragmentShaderSource, .null]⟩,
    ⟨.glCompileShader, [.val .fragmentShader]⟩,
    ⟨.glGetShaderiv, [.val .fragmentShader, .const .GL_COMPILE_STATUS, .addr .success]⟩ ]

/-- Lines 87-91 (140-144): the `if (!success)` block after the fragment compile. -/
def fragmentDiagnostic (env : Env) : List Call :=
  if !env.fragmentOk then
    [ ⟨.glGetShaderInfoLog, [.val .fragmentShader, .int 512, .null, .addr .infoLog]⟩,
      ⟨.cout, [.str "ERROR::SHADER::FRAGMENT::COMPILATION_FAILED\n",
               .str (infoLogText env.fragmentLog), .endl]⟩ ]
  else []

/-- Lines 94-99 (146-151): program creation, the two attachments, the link and
its status query. -/
def linkStages : List Call :=
  [ ⟨.glCreateProgram, []⟩,
    ⟨.glAttachShader, [.val .shaderProgram, .val .vertexShader]⟩,
    ⟨.glAttachShader, [.val .shaderProgram, .val .fragmentShader]⟩,
    ⟨.glLinkProgram, [.val .shaderProgram]⟩,
    ⟨.glGetProgramiv, [.val .shaderProgram, .const .GL_LINK_STATUS, .addr .success]⟩ ]

/-- Lines 100-103 (152-155): the `if (!success)` block after the link. -/
def linkDiagnostic (env : Env) : List Call :=
  if !env.linkOk then
    [ ⟨.glGetProgramInfoLog, [.val .shaderProgram, .int 512, .null, .addr .infoLog]⟩,
      ⟨.cout, [.str "ERROR::SHADER::PROGRAM::LINKING_FAILED\n",
               .str (infoLogText env.linkLog), .endl]⟩ ]
  else []

/-- Lines 105-106 (156-157): deletion of the two stage objects. -/
def deleteStages : List Call :=
  [ ⟨.glDeleteShader, [.val .vertexShader]⟩,
    ⟨.glDeleteShader, [.val .fragmentShader]⟩ ]

/-- Shader build section shared verbatim by HelloTriangle (lines 68-106) and
ShadersPart1 (lines 122-157). -/
def buildShaderProgram (env : Env) : List Call :=
  compileVertex ++ vertexDiagnostic env ++ compileFragment ++ fragmentDiagnostic env
    ++ linkStages ++ linkDiagnostic env ++ deleteStages

/-- The loader-initialization test `gladLoadGLLoader((GLADloadproc)glfwGetProcAddress)`. -/
def gladLoad : Call := ⟨.gladLoadGLLoader, [.addr .glfwGetProcAddress]⟩

/-- The loader failure branch: the message printed before `return -1`. -/
def gladFailed : List Call :=
  [ ⟨.cout, [.str "Failed to initialize GLAD", .endl]⟩ ]

/-- The loop test `glfwWindowShouldClose(window)`. -/
def shouldCloseTest : Call := ⟨.glfwWindowShouldClose, [.val .window]⟩

/-- The loop `while (!glfwWindowShouldClose(window)) body`, run from the given
should-close flag over the frames supplied.  `body` gives the calls of one
iteration and the flag at its end.  The result is the calls issued and whether
the loop was left (the test saw the flag set) before the frames ran out. -/
def renderLoop (body : Frame → Bool → List Call × Bool) :
    Bool → List Frame → List Call × Bool
  | true, _ => ([shouldCloseTest], true)
  | false, [] => ([shouldCloseTest], false)
  | false, f :: fs =>
    let rest := renderLoop body (body f false).2 fs
    (shouldCloseTest :: ((body f false).1 ++ rest.1), rest.2)

namespace HelloTriangle

/-- The array `vertices` of HelloTriangle.cpp. -/
def vertices : List ℚ :=
  [  1/2,  1/2, 0,
     1/2, -1/2, 0,
    -1/2, -1/2, 0,
    -1/2,  1/2, 0 ]

/-- The array `indices` of HelloTriangle.cpp. -/
def indices : List Nat :=
  [ 0, 1, 3,
    1, 2, 3 ]

/-- Lines 130-167: buffer and vertex-array setup. -/
def setupBuffers : List Call :=
  [ ⟨.glGenVertexArrays, [.int 1, .addr .VAO]⟩,
    ⟨.glGenBuffers, [.int 1, .addr .VBO]⟩,
    ⟨.glGenBuffers, [.int 1, .addr .EBO]⟩,
    ⟨.glBindVertexArray, [.val .VAO]⟩,
    ⟨.glBindBuffer, [.const .GL_ARRAY_BUFFER, .val .VBO]⟩,
    ⟨.glBufferData, [.const .GL_ARRAY_BUFFER, .int (vertices.length * sizeofFloat),
                     .addr .vertices, .const .GL_STATIC_DRAW]⟩,
    ⟨.glBindBuffer, [.const .GL_ELEMENT_ARRAY_BUFFER, .val .EBO]⟩,
    ⟨.glBufferData, [.const .GL_ELEMENT_ARRAY_BUFFER, .int (indices.length * sizeofUInt),
                     .addr .indices, .const .GL_STATIC_DRAW]⟩,
    ⟨.glVertexAttribPointer, [.int 0, .int 3, .const .GL_FLOAT, .const .GL_FALSE,
                              .int (3 * sizeofFloat), .int 0]⟩,
    ⟨.glEnableVertexAttribArray, [.int 0]⟩,
    ⟨.glBindBuffer, [.const .GL_ARRAY_BUFFER, .int 0]⟩,
    ⟨.glBindVertexArray, [.int 0]⟩ ]

/-- Lines 179-199: one iteration of the render loop. -/
def iteration (f : Frame) (shouldClose : Bool) : List Call × Bool :=
  ( (processInput f.escPressed shouldClose).1
    ++ [ ⟨.glClearColor, [.flt 2 10, .flt 3 10, .flt 3 10, .flt 1 1]⟩,
         ⟨.glClear, [.const .GL_COLOR_BUFFER_BIT]⟩,
         ⟨.glUseProgram, [.val .shaderProgram]⟩,
         ⟨.glBindVertexArray, [.val .VAO]⟩,
         ⟨.glDrawElements, [.const .GL_TRIANGLES, .int 6, .const .GL_UNSIGNED_INT, .int 0]⟩,
         ⟨.glfwSwapBuffers, [.val .window]⟩ ]
    ++ pollEvents f,
    (processInput f.escPressed shouldClose).2 || f.closeRequested )

/-- Lines 204-211: release of the device objects, then `glfwTerminate()`. -/
def teardown : List Call :=
  [ ⟨.glDeleteVertexArrays, [.int 1, .addr .VAO]⟩,
    ⟨.glDeleteBuffers, [.int 1, .addr .VBO]⟩,
    ⟨.glDeleteBuffers, [.int 1, .addr .EBO]⟩,
    ⟨.glDeleteProgram, [.val .shaderProgram]⟩,
    ⟨.glfwTerminate, []⟩ ]

/-- The function `main` of HelloTriangle.cpp. -/
def main (env : Env) : Run :=
  if !env.windowOk then
    ⟨glfwSetup env.apple ++ [createWindow] ++ windowFailed, some (-1)⟩
  else if !env.gladOk then
    ⟨glfwSetup env.apple ++ [createWindow] ++ makeCurrent ++ [gladLoad] ++ gladFailed,
     some (-1)⟩
  else
    let loop := renderLoop iteration false env.frames
    ⟨glfwSetup env.apple ++ [createWindow] ++ makeCurrent ++ [gladLoad]
       ++ buildShaderProgram env ++ setupBuffers ++ loop.1
       ++ (if loop.2 then teardown else []),
     if loop.2 then some 0 else none⟩

end HelloTriangle

namespace ShadersPart1

/-- The array `vertices` of ShadersPart1.cpp. -/
def vertices : List ℚ :=
  [  1/2, -1/2, 0,
    -1/2, -1/2, 0,
     0,    1/2, 0 ]

/-- Lines 167-186: buffer and vertex-array setup. -/
def setupBuffers : List Call :=
  [ ⟨.glGenVertexArrays, [.int 1, .addr .VAO]⟩,
    ⟨.glGenBuffers, [.int 1, .addr .VBO]⟩,
    ⟨.glBindVertexArray, [.val .VAO]⟩,
    ⟨.glBindBuffer, [.const .GL_ARRAY_BUFFER, .val .VBO]⟩,
    ⟨.glBufferData, [.const .GL_ARRAY_BUFFER, .int (vertices.length * sizeofFloat),
                     .addr .vertices, .const .GL_STATIC_DRAW]⟩,
    ⟨.glVertexAttribPointer, [.int 0, .int 3, .const .GL_FLOAT, .const .GL_FALSE,
                              .int (3 * sizeofFloat), .int 0]⟩,
    ⟨.glEnableVertexAttribArray, [.int 0]⟩,
    ⟨.glBindVertexArray, [.val .VAO]⟩ ]

/-- Lines 195-219: one iteration of the render loop. -/
def iteration (f : Frame) (shouldClose : Bool) : List Call × Bool :=
  ( (processInput f.escPressed shouldClose).1
    ++ [ ⟨.glClearColor, [.flt 2 10, .flt 3 10, .flt 3 10, .flt 1 1]⟩,
         ⟨.glClear, [.const .GL_COLOR_BUFFER_BIT]⟩,
         ⟨.glUseProgram, [.val .shaderProgram]⟩,
         ⟨.glfwGetTime, []⟩,
         ⟨.glGetUniformLocation, [.val .shaderProgram, .str "ourColor"]⟩,
         ⟨.glUniform4f, [.int f.uniformLocation, .flt 0 1, .green f.timeValue,
                         .flt 0 1, .flt 1 1]⟩,
         ⟨.glDrawArrays, [.const .GL_TRIANGLES, .int 0, .int 3]⟩,
         ⟨.glfwSwapBuffers, [.val .window]⟩ ]
    ++ pollEvents f,
    (processInput f.escPressed shouldClose).2 || f.closeRequested )

/-- Lines 224-230: release of the device objects, then `glfwTerminate()`. -/
def teardown : List Call :=
  [ ⟨.glDeleteVertexArrays, [.int 1, .addr .VAO]⟩,
    ⟨.glDeleteBuffers, [.int 1, .addr .VBO]⟩,
    ⟨.glDeleteProgram, [.val .shaderProgram]⟩,
    ⟨.glfwTerminate, []⟩ ]

/-- The function `main` of ShadersPart1.cpp. -/
def main (env : Env) : Run :=
  if !env.windowOk then
    ⟨glfwSetup env.apple ++ [createWindow] ++ windowFailed, some (-1)⟩
  else if !env.gladOk then
    ⟨glfwSetup env.apple ++ [createWindow] ++ makeCurrent ++ [gladLoad] ++ gladFailed,
     some (-1)⟩
  else
    let loop := renderLoop iteration false env.frames
    ⟨glfwSetup env.apple ++ [createWindow] ++ makeCurrent ++ [gladLoad]
       ++ buildShaderProgram env ++ setupBuffers ++ loop.1
       ++ (if loop.2 then teardown else []),
     if loop.2 then some 0 else none⟩

end ShadersPart1

namespace texturepart1

/-- The array `vertices` of texturepart1.cpp: position, colour, texture
coordinate per vertex. -/
def vertices : List ℚ :=
  [  1/2,  1/2, 0,   1, 0, 0,   1, 1,
     1/2, -1/2, 0,   0, 1, 0,   1, 0,
    -1/2, -1/2, 0,   0, 0, 1,   0, 0,
    -1/2,  1/2, 0,   1, 1, 0,   0, 1 ]

/-- The array `indices` of texturepart1.cpp. -/
def indices : List Nat :=
  [ 0, 1, 3,
    1, 2, 3 ]

/-- Line 40: construction of `ourShader` from the two shader files. -/
def constructShader : Call :=
  ⟨.Shader, [.addr .ourShader,
             .str "C:\\Users\\maqui\\Documents\\OpenGL\\OpenGL\\src\\shader.vert",
             .str "C:\\Users\\maqui\\Documents\\OpenGL\\OpenGL\\src\\shader.frag"]⟩

/-- Lines 54-71: buffer and vertex-array setup. -/
def setupBuffers : List Call :=
  [ ⟨.glGenVertexArrays, [.int 1, .addr .VAO]⟩,
    ⟨.glGenBuffers, [.int 1, .addr .VBO]⟩,
    ⟨.glGenBuffers, [.int 1, .addr .EBO]⟩,
    ⟨.glBindVertexArray, [.val .VAO]⟩,
    ⟨.glBindBuffer, [.const .GL_ARRAY_BUFFER, .val .VBO]⟩,
    ⟨.glBufferData, [.const .GL_ARRAY_BUFFER, .int (vertices.length * sizeofFloat),
                     .addr .vertices, .const .GL_STATIC_DRAW]⟩,
    ⟨.glBindBuffer, [.const .GL_ELEMENT_ARRAY_BUFFER, .val .EBO]⟩,
    ⟨.glBufferData, [.const .GL_ELEMENT_ARRAY_BUFFER, .int (indices.length * sizeofUInt),
                     .addr .indices, .const .GL_STATIC_DRAW]⟩,
    ⟨.glVertexAttribPointer, [.int 0, .int 3, .const .GL_FLOAT, .const .GL_FALSE,
                              .int (8 * sizeofFloat), .int 0]⟩,
    ⟨.glEnableVertexAttribArray, [.int 0]⟩,
    ⟨.glVertexAttribPointer, [.int 1, .int 3, .const .GL_FLOAT, .const .GL_FALSE,
                              .int (8 * sizeofFloat), .int (3 * sizeofFloat)]⟩,
    ⟨.glEnableVertexAttribArray, [.int 1]⟩,
    ⟨.glVertexAttribPointer, [.int 2, .int 2, .const .GL_FLOAT, .const .GL_FALSE,
                              .int (8 * sizeofFloat), .int (6 * sizeofFloat)]⟩,
    ⟨.glEnableVertexAttribArray, [.int 2]⟩ ]

/-- Lines 97-106: creation, binding and parameters of the texture object. -/
def setupTexture : List Call :=
  [ ⟨.glGenTextures, [.int 1, .addr .texture]⟩,
    ⟨.glBindTexture, [.const .GL_TEXTURE_2D, .val .texture]⟩,
    ⟨.glTexParameteri, [.const .GL_TEXTURE_2D, .const .GL_TEXTURE_WRAP_S, .const .GL_REPEAT]⟩,
    ⟨.glTexParameteri, [.const .GL_TEXTURE_2D, .const .GL_TEXTURE_WRAP_T, .const .GL_REPEAT]⟩,
    ⟨.glTexParameteri, [.const .GL_TEXTURE_2D, .const .GL_TEXTURE_MIN_FILTER, .const .GL_LINEAR]⟩,
    ⟨.glTexParameteri, [.const .GL_TEXTURE_2D, .const .GL_TEXTURE_MAG_FILTER, .const .GL_LINEAR]⟩ ]

/-- Lines 117-128: decode of the image file, upload when the result is
non-NULL and the message otherwise, then `stbi_image_free(data)`. -/
def loadTexture (image : Option Image) : List Call :=
  ⟨.stbi_load, [.str "C:\\Users\\maqui\\Documents\\OpenGL\\Textures\\wall.jpg",
                .addr .width, .addr .height, .addr .nrChannels, .int 0]⟩ ::
  (match image with
   | some img =>
     [ ⟨.glTexImage2D, [.const .GL_TEXTURE_2D, .int 0, .const .GL_RGB, .int img.width,
                        .int img.height, .int 0, .const .GL_RGB, .const .GL_UNSIGNED_BYTE,
                        .val .data]⟩,
       ⟨.glGenerateMipmap, [.const .GL_TEXTURE_2D]⟩ ]
   | none =>
     [ ⟨.cout, [.str "Failed to load texture", .endl]⟩ ])
  ++ [ ⟨.stbi_image_free, [.val .data]⟩ ]

/-- Lines 131-141: one iteration of the render loop. -/
def iteration (f : Frame) (shouldClose : Bool) : List Call × Bool :=
  ( [ ⟨.glClearColor, [.flt 2 10, .flt 3 10, .flt 3 10, .flt 1 1]⟩,
      ⟨.glClear, [.const .GL_COLOR_BUFFER_BIT]⟩,
      ⟨.glBindTexture, [.const .GL_TEXTURE_2D, .val .texture]⟩,
      ⟨.Shader_use, [.addr .ourShader]⟩,
      ⟨.glBindVertexArray, [.val .VAO]⟩,
      ⟨.glDrawElements, [.const .GL_TRIANGLES, .int 6, .const .GL_UNSIGNED_INT, .int 0]⟩,
      ⟨.glfwSwapBuffers, [.val .window]⟩ ]
    ++ pollEvents f,
    shouldClose || f.closeRequested )

/-- The function `main` of texturepart1.cpp.  Control falls off the end of
`main` after the loop, which in C++ returns 0. -/
def main (env : Env) : Run :=
  if !env.windowOk then
    ⟨glfwSetup env.apple ++ [createWindow] ++ windowFailed, some (-1)⟩
  else
    let loop := renderLoop iteration false env.frames
    ⟨glfwSetup env.apple ++ [createWindow] ++ makeCurrent ++ [constructShader]
       ++ setupBuffers ++ setupTexture ++ loadTexture env.image ++ loop.1,
     if loop.2 then some 0 else none⟩

end texturepart1

/-! ## Calls and runs named in the properties -/

/-- The compile status query of the vertex stage. -/
def vertexStatusCheck : Call :=
  ⟨.glGetShaderiv, [.val .vertexShader, .const .GL_COMPILE_STATUS, .addr .success]⟩
/-- The compile status query of the fragment stage. -/
def fragmentStatusCheck : Call :=
  ⟨.glGetShaderiv, [.val .fragmentShader, .const .GL_COMPILE_STATUS, .addr .success]⟩
/-- The link status query of the program object. -/
def linkStatusCheck : Call :=
  ⟨.glGetProgramiv, [.val .shaderProgram, .const .GL_LINK_STATUS, .addr .success]⟩
/-- The call `glAttachShader(shaderProgram, vertexShader)`. -/
def attachVertex : Call := ⟨.glAttachShader, [.val .shaderProgram, .val .vertexShader]⟩
/-- The call `glAttachShader(shaderProgram, fragmentShader)`. -/
def attachFragment : Call := ⟨.glAttachShader, [.val .shaderProgram, .val .fragmentShader]⟩
/-- The call `glLinkProgram(shaderProgram)`. -/
def linkProgram : Call := ⟨.glLinkProgram, [.val .shaderProgram]⟩
/-- The call `glUseProgram(shaderProgram)`. -/
def useProgram : Call := ⟨.glUseProgram, [.val .shaderProgram]⟩
/-- The call `glDrawElements(GL_TRIANGLES, 6, GL_UNSIGNED_INT, 0)`. -/
def drawElements : Call :=
  ⟨.glDrawElements, [.const .GL_TRIANGLES, .int 6, .const .GL_UNSIGNED_INT, .int 0]⟩
/-- The call `glDrawArrays(GL_TRIANGLES, 0, 3)`. -/
def drawArrays : Call := ⟨.glDrawArrays, [.const .GL_TRIANGLES, .int 0, .int 3]⟩

/-- One frame with no key pressed in which the user closes the window. -/
def closingFrame : Frame :=
  { escPressed := false, timeValue := 0, uniformLocation := 0, resize := none,
    closeRequested := true }

/-- A run in which the vertex stage fails to compile (and the link then fails),
and the window is closed during the first frame. -/
def vertexFailureEnv : Env :=
  { apple := false, windowOk := true, gladOk := true,
    vertexOk := false, vertexLog := "0:5(1): error: syntax error",
    fragmentOk := true, fragmentLog := "",
    linkOk := false, linkLog := "error: linking with uncompiled shader",
    image := none, frames := [closingFrame] }

/-- A run in which both stages compile but the link fails, and the window is
closed during the first frame. -/
def linkFailureEnv : Env :=
  { apple := false, windowOk := true, gladOk := true,
    vertexOk := true, vertexLog := "",
    fragmentOk := true, fragmentLog := "",
    linkOk := false, linkLog := "error: vertex shader lacks main",
    image := none, frames := [closingFrame] }

/-- External functions called between the start of `main` and the end of the
loader initialization in HelloTriangle and ShadersPart1. -/
def preludeFns : List Fn :=
  [.glfwInit, .glfwWindowHint, .glfwCreateWindow, .glfwMakeContextCurrent,
   .glfwSetFramebufferSizeCallback, .gladLoadGLLoader]

/-- External functions called by the shader build section. -/
def buildFns : List Fn :=
  [.glCreateShader, .glShaderSource, .glCompileShader, .glGetShaderiv, .glGetShaderInfoLog,
   .cout, .glCreateProgram, .glAttachShader, .glLinkProgram, .glGetProgramiv,
   .glGetProgramInfoLog, .glDeleteShader]

/-- External functions called by the render loops of HelloTriangle and
ShadersPart1, callback included. -/
def loopFns : List Fn :=
  [.glfwWindowShouldClose, .glfwGetKey, .glfwSetWindowShouldClose, .glClearColor, .glClear,
   .glUseProgram, .glBindVertexArray, .glDrawElements, .glDrawArrays, .glfwGetTime,
   .glGetUniformLocation, .glUniform4f, .glfwSwapBuffers, .glfwPollEvents, .glViewport]

/-- Program variables whose value is passed to a call inside those render loops. -/
def loopVars : List Var := [.window, .shaderProgram, .VAO]

/-- The `std::cout` statement printing the vertex compile diagnostic. -/
def vertexMessage (env : Env) : Call :=
  ⟨.cout, [.str "ERROR::SHADER::VERTEX::COMPILATION_FAILED\n",
           .str (infoLogText env.vertexLog), .endl]⟩
/-- The `std::cout` statement printing the fragment compile diagnostic. -/
def fragmentMessage (env : Env) : Call :=
  ⟨.cout, [.str "ERROR::SHADER::FRAGMENT::COMPILATION_FAILED\n",
           .str (infoLogText env.fragmentLog), .endl]⟩
/-- The `std::cout` statement printing the link diagnostic. -/
def linkMessage (env : Env) : Call :=
  ⟨.cout, [.str "ERROR::SHADER::PROGRAM::LINKING_FAILED\n",
           .str (infoLogText env.linkLog), .endl]⟩
/-- Retrieval of the vertex shader's info log. -/
def vertexLogRetrieval : Call :=
  ⟨.glGetShaderInfoLog, [.val .vertexShader, .int 512, .null, .addr .infoLog]⟩
/-- Retrieval of the fragment shader's info log. -/
def fragmentLogRetrieval : Call :=
  ⟨.glGetShaderInfoLog, [.val .fragmentShader, .int 512, .null, .addr .infoLog]⟩
/-- Retrieval of the program object's info log. -/
def linkLogRetrieval : Call :=
  ⟨.glGetProgramInfoLog, [.val .shaderProgram, .int 512, .null, .addr .infoLog]⟩

/-- Is `c` a `std::cout` statement whose first operand is the string `tag`? -/
def isDiagnostic (tag : String) (c : Call) : Bool :=
  c.fn == .cout && c.args.head? == some (.str tag)

/-- Is `c` an info-log retrieval on the object held in `v`? -/
def isLogRetrieval (v : Var) (c : Call) : Bool :=
  (c.fn == .glGetShaderInfoLog || c.fn == .glGetProgramInfoLog)
    && c.args.head? == some (.val v)

/-- Is `c` a `std::cout` statement? -/
def isCout (c : Call) : Bool := c.fn == .cout

/-- Characters an operand of `std::cout <<` writes. -/
def Arg.text : Arg → List Char
  | .str s => s.data
  | .endl => ['\n']
  | _ => []

/-- Characters written to standard output by a trace. -/
def stdoutText (t : List Call) : List Char :=
  (t.filter isCout).flatMap (fun c => c.args.flatMap Arg.text)

/-- Functions that retrieve or print a diagnostic. -/
def diagnosticFns : List Fn := [.cout, .glGetShaderInfoLog, .glGetProgramInfoLog]

/-- The call `glDeleteShader(vertexShader)`. -/
def deleteVertex : Call := ⟨.glDeleteShader, [.val .vertexShader]⟩
/-- The call `glDeleteShader(fragmentShader)`. -/
def deleteFragment : Call := ⟨.glDeleteShader, [.val .fragmentShader]⟩

/-- Everything HelloTriangle and ShadersPart1 issue before the first
`glDeleteShader`, in a run that reaches the shader build. -/
def beforeDelete (env : Env) : List Call :=
  glfwSetup env.apple ++ [createWindow] ++ makeCurrent ++ [gladLoad]
    ++ (compileVertex ++ vertexDiagnostic env ++ compileFragment ++ fragmentDiagnostic env
        ++ linkStages ++ linkDiagnostic env)

/-- Program variables whose value is passed to a call after the two
`glDeleteShader` calls in HelloTriangle and ShadersPart1. -/
def afterDeleteVars : List Var := [.window, .shaderProgram, .VAO, .VBO, .EBO]

/-- Is `c` a `glDeleteShader` call on the handle held in `v`? -/
def isDeleteOf (v : Var) (c : Call) : Bool :=
  c.fn == .glDeleteShader && c.args.contains (.val v)

/-- The graphics-API functions (`gl*`) among the external functions. -/
def graphicsFns : List Fn :=
  [.glCreateShader, .glShaderSource, .glCompileShader, .glGetShaderiv, .glGetShaderInfoLog,
   .glCreateProgram, .glAttachShader, .glLinkProgram, .glGetProgramiv, .glGetProgramInfoLog,
   .glDeleteShader, .glGenVertexArrays, .glGenBuffers, .glBindVertexArray, .glBindBuffer,
   .glBufferData, .glVertexAttribPointer, .glEnableVertexAttribArray, .glClearColor, .glClear,
   .glUseProgram, .glDrawElements, .glDrawArrays, .glDeleteVertexArrays, .glDeleteBuffers,
   .glDeleteProgram, .glViewport, .glGetUniformLocation, .glUniform4f, .glGenTextures,
   .glBindTexture, .glTexParameteri, .glTexImage2D, .glGenerateMipmap]

/-- The functions that release a device object. -/
def releaseFns : List Fn := [.glDeleteVertexArrays, .glDeleteBuffers, .glDeleteProgram]

/-- External functions called by the render loop of texturepart1, callback
included. -/
def textureLoopFns : List Fn :=
  [.glfwWindowShouldClose, .glClearColor, .glClear, .glBindTexture, .Shader_use,
   .glBindVertexArray, .glDrawElements, .glfwSwapBuffers, .glfwPollEvents, .glViewport]

/-- Every external function texturepart1 can call. -/
def textureFns : List Fn :=
  [.glfwInit, .glfwWindowHint, .glfwCreateWindow, .cout, .glfwTerminate,
   .glfwMakeContextCurrent, .glfwSetFramebufferSizeCallback, .Shader, .glGenVertexArrays,
   .glGenBuffers, .glBindBuffer, .glBufferData, .glVertexAttribPointer,
   .glEnableVertexAttribArray, .glGenTextures, .glTexParameteri, .stbi_load, .glTexImage2D,
   .glGenerateMipmap, .stbi_image_free] ++ textureLoopFns

/-- Program variables whose value is passed to a call inside the render loop of
texturepart1. -/
def textureLoopVars : List Var := [.window, .texture, .VAO]

/-- A 512 x 512 image with three channels. -/
def wallImage : Image := { width := 512, height := 512, nrChannels := 3 }

/-- A run in which the window is created, the loader initialization would report
failure if it were called, the image decodes, and the window is closed during the
first frame. -/
def loaderFailureEnv : Env :=
  { apple := false, windowOk := true, gladOk := false,
    vertexOk := true, vertexLog := "", fragmentOk := true, fragmentLog := "",
    linkOk := true, linkLog := "", image := some wallImage, frames := [closingFrame] }

/-- A run in which every external call succeeds and the window is closed during
the first frame. -/
def normalCloseEnv : Env :=
  { apple := false, windowOk := true, gladOk := true,
    vertexOk := true, vertexLog := "", fragmentOk := true, fragmentLog := "",
    linkOk := true, linkLog := "", image := some wallImage, frames := [closingFrame] }

/-- One frame in which the escape key is down and no close request arrives. -/
def escapeFrame : Frame :=
  { escPressed := true, timeValue := 0, uniformLocation := 0, resize := none,
    closeRequested := false }

/-- A run in which every external call succeeds, the escape key is down during
the first frame, and the window is closed during the second frame. -/
def escapeEnv : Env :=
  { apple := false, windowOk := true, gladOk := true,
    vertexOk := true, vertexLog := "", fragmentOk := true, fragmentLog := "",
    linkOk := true, linkLog := "", image := some wallImage,
    frames := [escapeFrame, closingFrame] }

/-- The call `stbi_load(path, &width, &height, &nrChannels, 0)`. -/
def stbiLoad : Call :=
  ⟨.stbi_load, [.str "C:\\Users\\maqui\\Documents\\OpenGL\\Textures\\wall.jpg",
                .addr .width, .addr .height, .addr .nrChannels, .int 0]⟩
/-- The call `glTexImage2D(GL_TEXTURE_2D, 0, GL_RGB, width, height, 0, GL_RGB,
GL_UNSIGNED_BYTE, data)` for a decoded image. -/
def uploadImage (img : Image) : Call :=
  ⟨.glTexImage2D, [.const .GL_TEXTURE_2D, .int 0, .const .GL_RGB, .int img.width,
                   .int img.height, .int 0, .const .GL_RGB, .const .GL_UNSIGNED_BYTE,
                   .val .data]⟩
/-- The call `glGenerateMipmap(GL_TEXTURE_2D)`. -/
def generateMipmap : Call := ⟨.glGenerateMipmap, [.const .GL_TEXTURE_2D]⟩
/-- The statement printing `Failed to load texture`. -/
def loadFailedMessage : Call := ⟨.cout, [.str "Failed to load texture", .endl]⟩
/-- The call `stbi_image_free(data)`. -/
def freeData : Call := ⟨.stbi_image_free, [.val .data]⟩

/-- Is `c` a call of `stbi_image_free`? -/
def isFree (c : Call) : Bool := c.fn == .stbi_image_free

/-- Everything texturepart1 issues before `stbi_image_free(data)`, in a run whose
window was created. -/
def beforeFree (env : Env) : List Call :=
  glfwSetup env.apple ++ [createWindow] ++ makeCurrent ++ [texturepart1.constructShader]
    ++ texturepart1.setupBuffers ++ texturepart1.setupTexture
    ++ (stbiLoad ::
        (match env.image with
         | some img => [uploadImage img, generateMipmap]
         | none => [loadFailedMessage]))

/-- Texture-binding state of the driver: the object bound to `GL_TEXTURE_2D`
after call `c`, given the one bound before it.  `none` stands for no texture
bound (object name 0). -/
def bindTexture (bound : Option Arg) (c : Call) : Option Arg :=
  match c.fn, c.args with
  | .glBindTexture, [.const .GL_TEXTURE_2D, a] => if a = .int 0 then none else some a
  | _, _ => bound

/-- The texture binding after a sequence of calls. -/
def bindingAfter (bound : Option Arg) (t : List Call) : Option Arg :=
  t.foldl bindTexture bound

/-- The texture binding in force at each `glDrawElements` call of a trace, in
order, starting from the binding `bound`. -/
def boundAtDraws : Option Arg → List Call → List (Option Arg)
  | _, [] => []
  | bound, c :: cs =>
    (if c.fn = .glDrawElements then [bound] else []) ++ boundAtDraws (bindTexture bound c) cs

/-- A run of texturepart1 in which the image decoder returns NULL and the window
is closed during the first frame. -/
def decodeFailureEnv : Env :=
  { apple := false, windowOk := true, gladOk := true,
    vertexOk := true, vertexLog := "", fragmentOk := true, fragmentLog := "",
    linkOk := true, linkLog := "", image := none, frames := [closingFrame] }

/-- External functions texturepart1 calls before `stbi_image_free` when the
decode fails. -/
def beforeFreeFns : List Fn :=
  [.glfwInit, .glfwWindowHint, .glfwCreateWindow, .cout, .glfwMakeContextCurrent,
   .glfwSetFramebufferSizeCallback, .Shader, .glGenVertexArrays, .glGenBuffers,
   .glBindVertexArray, .glBindBuffer, .glBufferData, .glVertexAttribPointer,
   .glEnableVertexAttribArray, .glGenTextures, .glBindTexture, .glTexParameteri, .stbi_load]

/-- The call `glfwGetKey(window, GLFW_KEY_ESCAPE)`. -/
def getKey : Call := ⟨.glfwGetKey, [.val .window, .const .GLFW_KEY_ESCAPE]⟩

/-- The call `glGetUniformLocation(shaderProgram, "ourColor")`. -/
def lookupOurColor : Call := ⟨.glGetUniformLocation, [.val .shaderProgram, .str "ourColor"]⟩

/-- The call `glUniform4f(vertexColorLocation, 0.0f, greenValue, 0.0f, 1.0f)` of the
iteration answered by frame `f`: `vertexColorLocation` is the result of that
iteration's lookup and `greenValue` is computed from that iteration's clock
reading. -/
def writeOurColor (f : Frame) : Call :=
  ⟨.glUniform4f, [.int f.uniformLocation, .flt 0 1, .green f.timeValue, .flt 0 1, .flt 1 1]⟩

/-- Does the iteration answered by frame `f` end with the should-close flag set
in HelloTriangle and ShadersPart1? -/
def closes (f : Frame) : Bool := f.escPressed || f.closeRequested

/-- The frames whose iteration is run by a loop that is left after the first
frame satisfying `p`: the frames up to and including that one. -/
def executed (p : Frame → Bool) : List Frame → List Frame
  | [] => []
  | f :: fs => if p f then [f] else f :: executed p fs

/-- Is `c` a program activation, a uniform lookup, a uniform write or a
`glDrawArrays` call? -/
def isUniformStep (c : Call) : Bool :=
  c.fn == .glUseProgram || c.fn == .glGetUniformLocation || c.fn == .glUniform4f
    || c.fn == .glDrawArrays

/-- Two frames with different lookup results and clock readings; the second
closes the window. -/
def twoFramesEnv : Env :=
  { apple := false, windowOk := true, gladOk := true,
    vertexOk := true, vertexLog := "", fragmentOk := true, fragmentLog := "",
    linkOk := true, linkLog := "", image := none,
    frames := [ { escPressed := false, timeValue := 1, uniformLocation := 0, resize := none,
                  closeRequested := false },
                { escPressed := false, timeValue := 2, uniformLocation := 5, resize := none,
                  closeRequested := true } ] }

/-- One active uniform of a linked program in the driver: its name, its location
and the four operands last written to it. -/
structure Uniform where
  name : String
  location : Int
  value : List Arg
  deriving DecidableEq, Repr

/-- Driver-side state read and written by the uniform calls: the uniform table of
the linked program and whether the driver has recorded an error. -/
structure ProgramState where
  uniforms : List Uniform
  error : Bool
  deriving DecidableEq, Repr

/-- Driver model of `glGetUniformLocation`: the location of the uniform of that
name, and -1 when the linked program has no uniform of that name. -/
def getUniformLocation (p : ProgramState) (name : String) : Int :=
  match p.uniforms.find? (fun u => u.name == name) with
  | some u => u.location
  | none => -1

/-- Driver model of `glUniform4f`: a write to location -1 leaves the state
unchanged; a write to the location of a uniform stores the operands there; a
write to any other location records an error. -/
def uniform4f (p : ProgramState) (loc : Int) (v : List Arg) : ProgramState :=
  if loc = -1 then p
  else if p.uniforms.any (fun u => u.location == loc) then
    { p with uniforms :=
        p.uniforms.map (fun u => if u.location = loc then { u with value := v } else u) }
  else { p with error := true }

/-- Effect of one call of a trace on the driver-side program state: only
`glUniform4f` touches it. -/
def driverStep (p : ProgramState) (c : Call) : ProgramState :=
  match c.fn, c.args with
  | .glUniform4f, [.int loc, x, y, z, w] => uniform4f p loc [x, y, z, w]
  | _, _ => p

/-- The call `glfwSwapBuffers(window)`. -/
def swapBuffers : Call := ⟨.glfwSwapBuffers, [.val .window]⟩

/-- A linked program whose only uniform is named `tint`, at location 0. -/
def tintOnlyProgram : ProgramState :=
  { uniforms := [ { name := "tint", location := 0,
                    value := [.flt 1 1, .flt 1 1, .flt 1 1, .flt 1 1] } ],
    error := false }

/-- A run of two iterations in which every lookup of `ourColor` returns -1; the
second iteration closes the window. -/
def absentUniformEnv : Env :=
  { apple := false, windowOk := true, gladOk := true,
    vertexOk := true, vertexLog := "", fragmentOk := true, fragmentLog := "",
    linkOk := true, linkLog := "", image := none,
    frames := [ { escPressed := false, timeValue := 1, uniformLocation := -1, resize := none,
                  closeRequested := false },
                { escPressed := false, timeValue := 2, uniformLocation := -1, resize := none,
                  closeRequested := true } ] }

/-- Is `c` an info-log retrieval or one of the three tagged diagnostic prints of
the shader build section? -/
def isShaderDiagnostic (c : Call) : Bool :=
  c.fn == .glGetShaderInfoLog || c.fn == .glGetProgramInfoLog
    || isDiagnostic "ERROR::SHADER::VERTEX::COMPILATION_FAILED\n" c
    || isDiagnostic "ERROR::SHADER::FRAGMENT::COMPILATION_FAILED\n" c
    || isDiagnostic "ERROR::SHADER::PROGRAM::LINKING_FAILED\n" c

/-- The calls of a trace other than info-log retrievals and shader diagnostic
prints. -/
def withoutDiagnostics (t : List Call) : List Call :=
  t.filter (fun c => !isShaderDiagnostic c)

/-- A linked program whose uniform `ourColor` is at location 0. -/
def ourColorProgram : ProgramState :=
  { uniforms := [ { name := "ourColor", location := 0,
                    value := [.flt 0 1, .flt 0 1, .flt 0 1, .flt 0 1] } ],
    error := false }

/-- The run with the same build flavour, window, loader and frame answers as `env`
in which every compile and link status is a success. -/
def allSucceed (env : Env) : Env :=
  { apple := env.apple, windowOk := env.windowOk, gladOk := env.gladOk,
    vertexOk := true, vertexLog := "", fragmentOk := true, fragmentLog := "",
    linkOk := true, linkLog := "", image := none, frames := env.frames }

/-- Binding state of the driver as far as vertex fetches go: the buffer bound to
`GL_ARRAY_BUFFER`, the bound vertex array, and, recorded per vertex array, its
element buffer and the source buffer and enable flag of each attribute; and per
buffer the array uploaded to it with its size in bytes.  `none` stands for the
object name 0. -/
structure GLState where
  arrayBuffer : Option Var
  vertexArray : Option Var
  elementBuffer : Var → Option Var
  attribSource : Var → Int → Option Var
  attribEnabled : Var → Int → Bool
  bufferData : Var → Option (Var × Int)

/-- The binding state of a fresh context: nothing bound, nothing recorded. -/
def initialGL : GLState :=
  { arrayBuffer := none, vertexArray := none, elementBuffer := fun _ => none,
    attribSource := fun _ _ => none, attribEnabled := fun _ _ => false,
    bufferData := fun _ => none }

/-- Effect of one call on the binding state.  The element buffer binding, the
attribute pointers and the enable flags are recorded in the bound vertex array;
`glVertexAttribPointer` records the buffer bound to `GL_ARRAY_BUFFER` at the time
of the call; `glBufferData` fills the buffer bound to its target.  Deleting a
vertex array forgets its record and unbinds it; deleting a buffer forgets its
data and unbinds it from `GL_ARRAY_BUFFER` and from the bound vertex array. -/
def glStep (s : GLState) (c : Call) : GLState :=
  match c.fn, c.args with
  | .glBindVertexArray, [.val a] => { s with vertexArray := some a }
  | .glBindVertexArray, [.int 0] => { s with vertexArray := none }
  | .glBindBuffer, [.const .GL_ARRAY_BUFFER, .val b] => { s with arrayBuffer := some b }
  | .glBindBuffer, [.const .GL_ARRAY_BUFFER, .int 0] => { s with arrayBuffer := none }
  | .glBindBuffer, [.const .GL_ELEMENT_ARRAY_BUFFER, .val b] =>
    match s.vertexArray with
    | some a => { s with elementBuffer := fun v => if v = a then some b else s.elementBuffer v }
    | none => s
  | .glBindBuffer, [.const .GL_ELEMENT_ARRAY_BUFFER, .int 0] =>
    match s.vertexArray with
    | some a => { s with elementBuffer := fun v => if v = a then none else s.elementBuffer v }
    | none => s
  | .glBufferData, [.const .GL_ARRAY_BUFFER, .int n, .addr arr, _] =>
    match s.arrayBuffer with
    | some b => { s with bufferData := fun v => if v = b then some (arr, n) else s.bufferData v }
    | none => s
  | .glBufferData, [.const .GL_ELEMENT_ARRAY_BUFFER, .int n, .addr arr, _] =>
    match s.vertexArray.bind s.elementBuffer with
    | some b => { s with bufferData := fun v => if v = b then some (arr, n) else s.bufferData v }
    | none => s
  | .glVertexAttribPointer, [.int i, _, _, _, _, _] =>
    match s.vertexArray with
    | some a =>
      { s with attribSource := fun v j =>
          if v = a ∧ j = i then s.arrayBuffer else s.attribSource v j }
    | none => s
  | .glEnableVertexAttribArray, [.int i] =>
    match s.vertexArray with
    | some a =>
      { s with attribEnabled := fun v j => if v = a ∧ j = i then true else s.attribEnabled v j }
    | none => s
  | .glDeleteVertexArrays, [.int 1, .addr a] =>
    { s with
      vertexArray := if s.vertexArray = some a then none else s.vertexArray,
      elementBuffer := fun v => if v = a then none else s.elementBuffer v,
      attribSource := fun v j => if v = a then none else s.attribSource v j,
      attribEnabled := fun v j => if v = a then false else s.attribEnabled v j }
  | .glDeleteBuffers, [.int 1, .addr b] =>
    { s with
      arrayBuffer := if s.arrayBuffer = some b then none else s.arrayBuffer,
      elementBuffer := fun v =>
        if s.vertexArray = some v ∧ s.elementBuffer v = some b then none
        else s.elementBuffer v,
      bufferData := fun v => if v = b then none else s.bufferData v }
  | _, _ => s

/-- The binding state after a sequence of calls. -/
def glStateAfter (s : GLState) (t : List Call) : GLState := t.foldl glStep s

/-- The binding state in force at each `glDrawElements` call of a trace, in
order, starting from the state `s`. -/
def drawStates : GLState → List Call → List GLState
  | _, [] => []
  | s, c :: cs => (if c.fn = .glDrawElements then [s] else []) ++ drawStates (glStep s c) cs

/-- What the vertex array `VAO` of HelloTriangle records once set up: its element
buffer is `EBO` holding the uploaded `indices`, and attribute 0 is enabled and
sourced from `VBO` holding the uploaded `vertices`. -/
def HelloTriangle.Configured (s : GLState) : Prop :=
  s.elementBuffer .VAO = some .EBO ∧
  s.bufferData .EBO = some (.indices, (HelloTriangle.indices.length : Int) * sizeofUInt) ∧
  s.attribEnabled .VAO 0 = true ∧
  s.attribSource .VAO 0 = some .VBO ∧
  s.bufferData .VBO = some (.vertices, (HelloTriangle.vertices.length : Int) * sizeofFloat)

/-- The call `glBindBuffer(GL_ELEMENT_ARRAY_BUFFER, 0)`, commented out at line 163
of HelloTriangle.cpp. -/
def unbindElementBuffer : Call :=
  ⟨.glBindBuffer, [.const .GL_ELEMENT_ARRAY_BUFFER, .int 0]⟩

/-- The functions that act on the binding state. -/
def bindingFns : List Fn :=
  [.glBindVertexArray, .glBindBuffer, .glBufferData, .glVertexAttribPointer,
   .glEnableVertexAttribArray, .glDeleteVertexArrays, .glDeleteBuffers]

/-- Everything HelloTriangle issues before its render loop, in a run that gets
past window creation and loader initialization. -/
def HelloTriangle.beforeLoop (env : Env) : List Call :=
  glfwSetup env.apple ++ [createWindow] ++ makeCurrent ++ [gladLoad]
    ++ buildShaderProgram env ++ HelloTriangle.setupBuffers

/-- Is `c` a `glBindBuffer` call on the target `GL_ELEMENT_ARRAY_BUFFER`? -/
def isElementBind (c : Call) : Bool :=
  c.fn == .glBindBuffer && c.args.head? == some (.const .GL_ELEMENT_ARRAY_BUFFER)

/-- The x and y position of vertex `i` of texturepart1: floats 0 and 1 of its
8-float record (attribute 0, offset 0, stride `8 * sizeof(float)`). -/
def texturepart1.position (i : Nat) : ℚ × ℚ :=
  (texturepart1.vertices.getD (8 * i) 0, texturepart1.vertices.getD (8 * i + 1) 0)

/-- The texture coordinate of vertex `i` of texturepart1: floats 6 and 7 of its
8-float record (attribute 2, offset `6 * sizeof(float)`, stride
`8 * sizeof(float)`). -/
def texturepart1.texCoord (i : Nat) : ℚ × ℚ :=
  (texturepart1.vertices.getD (8 * i + 6) 0, texturepart1.vertices.getD (8 * i + 7) 0)

/-- Number of components per pixel of a pixel format passed to `glTexImage2D`. -/
def componentsPerPixel : Const → Int
  | .GL_RGB => 3
  | _ => 0

/-- Number of bytes per component of a component type passed to `glTexImage2D`. -/
def bytesPerComponent : Const → Int
  | .GL_UNSIGNED_BYTE => 1
  | .GL_UNSIGNED_INT => 4
  | .GL_FLOAT => 4
  | _ => 0

/-- Number of bytes of pixel data a `glTexImage2D` call declares at its data
pointer: width times height pixels of the declared source format and type (row
padding left aside). -/
def uploadReadBytes (c : Call) : Int :=
  match c.fn, c.args with
  | .glTexImage2D, [_, _, _, .int w, .int h, _, .const format, .const type, _] =>
    w * h * componentsPerPixel format * bytesPerComponent type
  | _, _ => 0

/-- Size in bytes of the buffer `stbi_load` returns when no channel count is
forced (last argument 0): one byte per channel per pixel. -/
def decodedBytes (img : Image) : Int := img.width * img.height * img.nrChannels

/-- A 2 x 2 greyscale image: one channel. -/
def greyImage : Image := { width := 2, height := 2, nrChannels := 1 }

/-- A 2 x 2 image with an alpha channel: four channels. -/
def alphaImage : Image := { width := 2, height := 2, nrChannels := 4 }

/-- A run of texturepart1 in which the file decodes to a greyscale image and the
window is closed during the first frame. -/
def greyImageEnv : Env :=
  { apple := false, windowOk := true, gladOk := true,
    vertexOk := true, vertexLog := "", fragmentOk := true, fragmentLog := "",
    linkOk := true, linkLog := "", image := some greyImage, frames := [closingFrame] }

/-- Layout of one vertex attribute, in floats: where it starts inside a vertex
record, how many floats it has, and the distance between consecutive records. -/
structure Attrib where
  offset : Nat
  size : Nat
  stride : Nat
  deriving DecidableEq, Repr

/-- The attribute index and layout a `glVertexAttribPointer` call of type
`GL_FLOAT` declares; byte stride and byte offset are converted to floats. -/
def attribOf (c : Call) : Option (Int × Attrib) :=
  match c.fn, c.args with
  | .glVertexAttribPointer,
      [.int i, .int size, .const .GL_FLOAT, _, .int strideBytes, .int offsetBytes] =>
    some (i, { offset := (offsetBytes / sizeofFloat).toNat, size := size.toNat,
               stride := (strideBytes / sizeofFloat).toNat })
  | _, _ => none

/-- The layouts of the attributes a setup sequence declares and enables, in
order of declaration. -/
def enabledAttribs (setup : List Call) : List Attrib :=
  (setup.filterMap attribOf).filterMap (fun ia =>
    if (⟨.glEnableVertexAttribArray, [.int ia.1]⟩ : Call) ∈ setup then some ia.2 else none)

/-- The indices an indexed draw call `glDrawElements(GL_TRIANGLES, count,
GL_UNSIGNED_INT, 0)` fetches from the index array. -/
def fetchedIndices (draw : Call) (indices : List Nat) : List Nat :=
  match draw.fn, draw.args with
  | .glDrawElements, [_, .int count, .const .GL_UNSIGNED_INT, .int 0] =>
    indices.take count.toNat
  | _, _ => []

/-- The number of indices an indexed draw call asks for. -/
def drawCount (draw : Call) : Int :=
  match draw.fn, draw.args with
  | .glDrawElements, [_, .int count, _, _] => count
  | .glDrawArrays, [_, _, .int count] => count
  | _, _ => 0

/-- The vertices a non-indexed draw call `glDrawArrays(GL_TRIANGLES, first,
count)` fetches. -/
def fetchedVertices (draw : Call) : List Nat :=
  match draw.fn, draw.args with
  | .glDrawArrays, [_, .int first, .int count] => List.range' first.toNat count.toNat
  | _, _ => []

/-- Does the fetch of attribute `a` for vertex `i` stay inside an array of
`floats` floats? -/
def fetchInside (floats : Nat) (i : Nat) (a : Attrib) : Bool :=
  i * a.stride + a.offset + a.size ≤ floats

/-- The float positions inside a vertex record read by a list of attributes. -/
def coveredFloats (attribs : List Attrib) : List Nat :=
  attribs.flatMap (fun a => List.range' a.offset a.size)

/-- The x and y position of vertex `i` of HelloTriangle: floats 0 and 1 of its
3-float record. -/
def HelloTriangle.position (i : Nat) : ℚ × ℚ :=
  (HelloTriangle.vertices.getD (3 * i) 0, HelloTriangle.vertices.getD (3 * i + 1) 0)

/-- The three vertex indices of the `k`-th triangle of an index array drawn with
`GL_TRIANGLES`. -/
def triangle (indices : List Nat) (k : Nat) : Nat × Nat × Nat :=
  (indices.getD (3 * k) 0, indices.getD (3 * k + 1) 0, indices.getD (3 * k + 2) 0)

/-- Twice the signed area of the triangle `a b c`: positive when the three points
turn counter-clockwise, negative when clockwise, zero when collinear. -/
def signedArea2 (a b c : ℚ × ℚ) : ℚ :=
  (b.1 - a.1) * (c.2 - a.2) - (b.2 - a.2) * (c.1 - a.1)

/-- The area of the triangle `a b c`. -/
def triangleArea (a b c : ℚ × ℚ) : ℚ := |signedArea2 a b c| / 2

/-- The call `glBindTexture(GL_TEXTURE_2D, texture)`. -/
def bindTextureObject : Call := ⟨.glBindTexture, [.const .GL_TEXTURE_2D, .val .texture]⟩

/-! ## Theorems -/

theorem renderLoop_closed (body : Frame → Bool → List Call × Bool) (fs : List Frame) :
    renderLoop body true fs = ([shouldCloseTest], true) := by
  cases fs <;> rfl

theorem renderLoop_left (body : Frame → Bool → List Call × Bool) (p : Frame → Bool)
    (h : ∀ f, (body f false).2 = p f) (fs : List Frame) :
    (renderLoop body false fs).2 = fs.any p := by
  induction fs with
  | nil => rfl
  | cons f fs ih =>
    simp only [renderLoop, List.any_cons, h]
    cases hp : p f
    · simpa using ih
    · simp [renderLoop_closed]

theorem renderLoop_forall (body : Frame → Bool → List Call × Bool) (P : Call → Prop)
    (h0 : P shouldCloseTest) (h : ∀ f, ∀ c ∈ (body f false).1, P c) :
    ∀ (sc : Bool) (fs : List Frame), ∀ c ∈ (renderLoop body sc fs).1, P c := by
  intro sc fs
  induction fs generalizing sc with
  | nil =>
    cases sc <;> simp [renderLoop, h0]
  | cons f fs ih =>
    cases sc
    · intro c hc
      simp only [renderLoop, List.mem_cons, List.mem_append] at hc
      rcases hc with rfl | hc | hc
      · exact h0
      · exact h f c hc
      · exact ih _ c hc
    · simp [renderLoop, h0]

theorem HelloTriangle_iteration_flag (f : Frame) :
    (HelloTriangle.iteration f false).2 = (f.escPressed || f.closeRequested) := by
  cases h : f.escPressed <;> simp [HelloTriangle.iteration, processInput, h]

theorem ShadersPart1_iteration_flag (f : Frame) :
    (ShadersPart1.iteration f false).2 = (f.escPressed || f.closeRequested) := by
  cases h : f.escPressed <;> simp [ShadersPart1.iteration, processInput, h]

/-- C1: in HelloTriangle and ShadersPart1, `main` returns -1 exactly when window
creation returned NULL or the loader initialization failed; it returns 0 exactly
when both succeeded and some supplied frame has the escape key pressed or a close
request (the loop ended), whatever the compile and link statuses; and it returns
no other value. -/
theorem C1_exit_code (env : Env) :
    (((HelloTriangle.main env).exit = some (-1)
        ↔ (env.windowOk = false ∨ env.gladOk = false)) ∧
     ((HelloTriangle.main env).exit = some 0
        ↔ (env.windowOk = true ∧ env.gladOk = true ∧
            env.frames.any (fun f => f.escPressed || f.closeRequested) = true)) ∧
     (∀ c, (HelloTriangle.main env).exit = some c → c = -1 ∨ c = 0)) ∧
    (((ShadersPart1.main env).exit = some (-1)
        ↔ (env.windowOk = false ∨ env.gladOk = false)) ∧
     ((ShadersPart1.main env).exit = some 0
        ↔ (env.windowOk = true ∧ env.gladOk = true ∧
            env.frames.any (fun f => f.escPressed || f.closeRequested) = true)) ∧
     (∀ c, (ShadersPart1.main env).exit = some c → c = -1 ∨ c = 0)) := by
  have hH := renderLoop_left HelloTriangle.iteration _ HelloTriangle_iteration_flag env.frames
  have hS := renderLoop_left ShadersPart1.iteration _ ShadersPart1_iteration_flag env.frames
  constructor
  · cases hw : env.windowOk <;> cases hg : env.gladOk <;>
      cases ha : env.frames.any (fun f => f.escPressed || f.closeRequested) <;>
      simp [HelloTriangle.main, hw, hg, hH, ha]
  · cases hw : env.windowOk <;> cases hg : env.gladOk <;>
      cases ha : env.frames.any (fun f => f.escPressed || f.closeRequested) <;>
      simp [ShadersPart1.main, hw, hg, hS, ha]

theorem renderLoop_count (body : Frame → Bool → List Call × Bool) (c : Call)
    (hc : c ≠ shouldCloseTest) (h1 : ∀ f, (body f false).1.count c = 1)
    (h0 : ∀ f, (body f false).1.count shouldCloseTest = 0) :
    ∀ (sc : Bool) (fs : List Frame),
      (renderLoop body sc fs).1.count c + 1
        = (renderLoop body sc fs).1.count shouldCloseTest := by
  have hne : (shouldCloseTest == c) = false := by
    simpa using fun h => hc h.symm
  intro sc fs
  induction fs generalizing sc with
  | nil => cases sc <;> simp [renderLoop, List.count_cons, hne]
  | cons f fs ih =>
    cases sc
    · have := ih (body f false).2
      simp only [renderLoop, List.count_cons, List.count_append, h1, h0, hne, beq_self_eq_true]
      simp only [Bool.false_eq_true, if_false, if_true]
      omega
    · simp [renderLoop, List.count_cons, hne]

theorem build_checks_attach_link (env : Env) :
    List.Sublist [vertexStatusCheck, fragmentStatusCheck, attachVertex, attachFragment,
      linkProgram, linkStatusCheck] (buildShaderProgram env) := by
  have h1 : List.Sublist [vertexStatusCheck] compileVertex := by decide
  have h2 : List.Sublist [fragmentStatusCheck] compileFragment := by decide
  have h3 : List.Sublist [attachVertex, attachFragment, linkProgram, linkStatusCheck]
      linkStages := by decide
  exact ((((((h1.append (List.nil_sublist (vertexDiagnostic env))).append h2).append
    (List.nil_sublist (fragmentDiagnostic env))).append h3).append
    (List.nil_sublist (linkDiagnostic env))).append (List.nil_sublist deleteStages))

theorem HelloTriangle_trace (env : Env) (hw : env.windowOk = true) (hg : env.gladOk = true) :
    (HelloTriangle.main env).trace
      = glfwSetup env.apple ++ [createWindow] ++ makeCurrent ++ [gladLoad]
          ++ buildShaderProgram env ++ HelloTriangle.setupBuffers
          ++ (renderLoop HelloTriangle.iteration false env.frames).1
          ++ (if (renderLoop HelloTriangle.iteration false env.frames).2
                then HelloTriangle.teardown else []) := by
  simp [HelloTriangle.main, hw, hg]

theorem ShadersPart1_trace (env : Env) (hw : env.windowOk = true) (hg : env.gladOk = true) :
    (ShadersPart1.main env).trace
      = glfwSetup env.apple ++ [createWindow] ++ makeCurrent ++ [gladLoad]
          ++ buildShaderProgram env ++ ShadersPart1.setupBuffers
          ++ (renderLoop ShadersPart1.iteration false env.frames).1
          ++ (if (renderLoop ShadersPart1.iteration false env.frames).2
                then ShadersPart1.teardown else []) := by
  simp [ShadersPart1.main, hw, hg]

/-- A sublist of the shader build section is a sublist of a trace laid out as
in `HelloTriangle_trace` / `ShadersPart1_trace`. -/
theorem sublist_of_build {l : List Call} {env : Env} (a b c d : List Call)
    (h : List.Sublist l (buildShaderProgram env)) :
    List.Sublist l (a ++ buildShaderProgram env ++ b ++ c ++ d) :=
  List.sublist_append_of_sublist_left (List.sublist_append_of_sublist_left
    (List.sublist_append_of_sublist_left (List.sublist_append_of_sublist_right h)))

/-- The traces of HelloTriangle and ShadersPart1 laid out around the shader build
section. -/
theorem traces_around_build (env : Env) (hw : env.windowOk = true) (hg : env.gladOk = true) :
    (HelloTriangle.main env).trace
      = (glfwSetup env.apple ++ [createWindow] ++ makeCurrent ++ [gladLoad])
          ++ buildShaderProgram env
          ++ (HelloTriangle.setupBuffers
              ++ (renderLoop HelloTriangle.iteration false env.frames).1
              ++ (if (renderLoop HelloTriangle.iteration false env.frames).2
                    then HelloTriangle.teardown else [])) ∧
    (ShadersPart1.main env).trace
      = (glfwSetup env.apple ++ [createWindow] ++ makeCurrent ++ [gladLoad])
          ++ buildShaderProgram env
          ++ (ShadersPart1.setupBuffers
              ++ (renderLoop ShadersPart1.iteration false env.frames).1
              ++ (if (renderLoop ShadersPart1.iteration false env.frames).2
                    then ShadersPart1.teardown else [])) := by
  rw [HelloTriangle_trace env hw hg, ShadersPart1_trace env hw hg]
  simp only [List.append_assoc, and_self]

/-- Around the shader build section, the vertex compile status decides nothing
but the `if (!success)` block right after its query. -/
theorem vertex_status_only_adds_diagnostic (env : Env) (P X : List Call) :
    ∃ before after,
      P ++ buildShaderProgram env ++ X
        = before ++ [vertexStatusCheck]
            ++ vertexDiagnostic env ++ after ∧
      P ++ buildShaderProgram { env with vertexOk := true } ++ X
        = before ++ [vertexStatusCheck] ++ after := by
  refine ⟨P ++ [ ⟨.glCreateShader, [.const .GL_VERTEX_SHADER]⟩,
      ⟨.glShaderSource, [.val .vertexShader, .int 1, .addr .vertexShaderSource, .null]⟩,
      ⟨.glCompileShader, [.val .vertexShader]⟩ ],
    compileFragment ++ fragmentDiagnostic env ++ linkStages ++ linkDiagnostic env
      ++ deleteStages ++ X, ?_, ?_⟩
  · rw [buildShaderProgram]
    simp only [compileVertex, vertexStatusCheck, List.append_assoc, List.cons_append,
      List.nil_append]
  · have hv : vertexDiagnostic { env with vertexOk := true } = [] := rfl
    have hf : fragmentDiagnostic { env with vertexOk := true } = fragmentDiagnostic env := rfl
    have hl : linkDiagnostic { env with vertexOk := true } = linkDiagnostic env := rfl
    rw [buildShaderProgram, hv, hf, hl]
    simp only [compileVertex, vertexStatusCheck, List.append_assoc, List.cons_append,
      List.nil_append, List.append_nil]

/-- Around the shader build section, the fragment compile status decides nothing
but the `if (!success)` block right after its query. -/
theorem fragment_status_only_adds_diagnostic (env : Env) (P X : List Call) :
    ∃ before after,
      P ++ buildShaderProgram env ++ X
        = before ++ [fragmentStatusCheck]
            ++ fragmentDiagnostic env ++ after ∧
      P ++ buildShaderProgram { env with fragmentOk := true } ++ X
        = before ++ [fragmentStatusCheck] ++ after := by
  refine ⟨P ++ compileVertex ++ vertexDiagnostic env
      ++ [ ⟨.glCreateShader, [.const .GL_FRAGMENT_SHADER]⟩,
           ⟨.glShaderSource, [.val .fragmentShader, .int 1, .addr .fragmentShaderSource,
             .null]⟩,
           ⟨.glCompileShader, [.val .fragmentShader]⟩ ],
    linkStages ++ linkDiagnostic env ++ deleteStages ++ X, ?_, ?_⟩
  · rw [buildShaderProgram]
    simp only [compileFragment, fragmentStatusCheck, List.append_assoc, List.cons_append,
      List.nil_append]
  · have hv : vertexDiagnostic { env with fragmentOk := true } = vertexDiagnostic env := rfl
    have hf : fragmentDiagnostic { env with fragmentOk := true } = [] := rfl
    have hl : linkDiagnostic { env with fragmentOk := true } = linkDiagnostic env := rfl
    rw [buildShaderProgram, hv, hf, hl]
    simp only [compileFragment, fragmentStatusCheck, List.append_assoc, List.cons_append,
      List.nil_append, List.append_nil]

/-- Around the shader build section, the link status decides nothing but the
`if (!success)` block right after its query. -/
theorem link_status_only_adds_diagnostic (env : Env) (P X : List Call) :
    ∃ before after,
      P ++ buildShaderProgram env ++ X
        = before ++ [linkStatusCheck]
            ++ linkDiagnostic env ++ after ∧
      P ++ buildShaderProgram { env with linkOk := true } ++ X
        = before ++ [linkStatusCheck] ++ after := by
  refine ⟨P ++ compileVertex ++ vertexDiagnostic env ++ compileFragment
      ++ fragmentDiagnostic env
      ++ [ ⟨.glCreateProgram, []⟩,
           ⟨.glAttachShader, [.val .shaderProgram, .val .vertexShader]⟩,
           ⟨.glAttachShader, [.val .shaderProgram, .val .fragmentShader]⟩,
           ⟨.glLinkProgram, [.val .shaderProgram]⟩ ],
    deleteStages ++ X, ?_, ?_⟩
  · rw [buildShaderProgram]
    simp only [linkStages, linkStatusCheck, List.append_assoc, List.cons_append,
      List.nil_append]
  · have hv : vertexDiagnostic { env with linkOk := true } = vertexDiagnostic env := rfl
    have hf : fragmentDiagnostic { env with linkOk := true } = fragmentDiagnostic env := rfl
    have hl : linkDiagnostic { env with linkOk := true } = [] := rfl
    rw [buildShaderProgram, hv, hf, hl]
    simp only [linkStages, linkStatusCheck, List.append_assoc, List.cons_append,
      List.nil_append, List.append_nil]

/-- C3 (counterexample): with a failed vertex compile status, both programs still
pass the vertex stage handle to `glAttachShader` and then call `glLinkProgram`. -/
theorem C3_counterexample :
    vertexFailureEnv.vertexOk = false ∧
    List.Sublist [vertexStatusCheck, attachVertex, linkProgram]
      (HelloTriangle.main vertexFailureEnv).trace ∧
    List.Sublist [vertexStatusCheck, attachVertex, linkProgram]
      (ShadersPart1.main vertexFailureEnv).trace := by
  decide

/-- C3 (amended): in HelloTriangle and ShadersPart1, every run that gets past
window creation and loader initialization queries both compile statuses and then
attaches the vertex stage handle and the fragment stage handle to the program
object and calls `glLinkProgram`, whatever the two compile statuses are; and a
failed compile status only causes that stage's info log to be retrieved and
printed: the run issues exactly the calls of the run in which that status is a
success, with the retrieval and the tagged print inserted right after the status
query. -/
theorem C3_stages_attached_whatever_status (env : Env)
    (hw : env.windowOk = true) (hg : env.gladOk = true) :
    (List.Sublist [vertexStatusCheck, fragmentStatusCheck, attachVertex, attachFragment,
        linkProgram] (HelloTriangle.main env).trace ∧
      List.Sublist [vertexStatusCheck, fragmentStatusCheck, attachVertex, attachFragment,
        linkProgram] (ShadersPart1.main env).trace) ∧
    (∃ before after,
      (HelloTriangle.main env).trace
        = before ++ [vertexStatusCheck]
            ++ (if env.vertexOk then [] else [vertexLogRetrieval, vertexMessage env])
            ++ after ∧
      (HelloTriangle.main { env with vertexOk := true }).trace
        = before ++ [vertexStatusCheck] ++ after) ∧
    (∃ before after,
      (HelloTriangle.main env).trace
        = before ++ [fragmentStatusCheck]
            ++ (if env.fragmentOk then [] else [fragmentLogRetrieval, fragmentMessage env])
            ++ after ∧
      (HelloTriangle.main { env with fragmentOk := true }).trace
        = before ++ [fragmentStatusCheck] ++ after) ∧
    (∃ before after,
      (ShadersPart1.main env).trace
        = before ++ [vertexStatusCheck]
            ++ (if env.vertexOk then [] else [vertexLogRetrieval, vertexMessage env])
            ++ after ∧
      (ShadersPart1.main { env with vertexOk := true }).trace
        = before ++ [vertexStatusCheck] ++ after) ∧
    (∃ before after,
      (ShadersPart1.main env).trace
        = before ++ [fragmentStatusCheck]
            ++ (if env.fragmentOk then [] else [fragmentLogRetrieval, fragmentMessage env])
            ++ after ∧
      (ShadersPart1.main { env with fragmentOk := true }).trace
        = before ++ [fragmentStatusCheck] ++ after) := by
  have h : List.Sublist [vertexStatusCheck, fragmentStatusCheck, attachVertex,
      attachFragment, linkProgram] (buildShaderProgram env) :=
    List.Sublist.trans (by decide) (build_checks_attach_link env)
  obtain ⟨tH, tS⟩ := traces_around_build env hw hg
  obtain ⟨tHv, tSv⟩ := traces_around_build { env with vertexOk := true } hw hg
  obtain ⟨tHf, tSf⟩ := traces_around_build { env with fragmentOk := true } hw hg
  have hv : vertexDiagnostic env
      = if env.vertexOk then [] else [vertexLogRetrieval, vertexMessage env] := by
    cases h : env.vertexOk <;> simp [vertexDiagnostic, h, vertexLogRetrieval, vertexMessage]
  have hf : fragmentDiagnostic env
      = if env.fragmentOk then [] else [fragmentLogRetrieval, fragmentMessage env] := by
    cases h : env.fragmentOk <;>
      simp [fragmentDiagnostic, h, fragmentLogRetrieval, fragmentMessage]
  refine ⟨?_, ?_, ?_, ?_, ?_⟩
  · rw [HelloTriangle_trace env hw hg, ShadersPart1_trace env hw hg]
    exact ⟨sublist_of_build _ _ _ _ h, sublist_of_build _ _ _ _ h⟩
  · obtain ⟨b, a, h1, h2⟩ := vertex_status_only_adds_diagnostic env _ _
    exact ⟨b, a, hv ▸ tH.trans h1, tHv.trans h2⟩
  · obtain ⟨b, a, h1, h2⟩ := fragment_status_only_adds_diagnostic env _ _
    exact ⟨b, a, hf ▸ tH.trans h1, tHf.trans h2⟩
  · obtain ⟨b, a, h1, h2⟩ := vertex_status_only_adds_diagnostic env _ _
    exact ⟨b, a, hv ▸ tS.trans h1, tSv.trans h2⟩
  · obtain ⟨b, a, h1, h2⟩ := fragment_status_only_adds_diagnostic env _ _
    exact ⟨b, a, hf ▸ tS.trans h1, tSf.trans h2⟩

/-- Witness of `C3_stages_attached_whatever_status` on the run whose vertex stage
fails to compile. -/
theorem C3_stages_attached_witness :
    vertexFailureEnv.windowOk = true ∧ vertexFailureEnv.gladOk = true ∧
    vertexFailureEnv.vertexOk = false ∧
    (List.Sublist [vertexStatusCheck, fragmentStatusCheck, attachVertex, attachFragment,
        linkProgram] (HelloTriangle.main vertexFailureEnv).trace ∧
      List.Sublist [vertexStatusCheck, fragmentStatusCheck, attachVertex, attachFragment,
        linkProgram] (ShadersPart1.main vertexFailureEnv).trace) ∧
    (∃ before after,
      (HelloTriangle.main vertexFailureEnv).trace
        = before ++ [vertexStatusCheck]
            ++ [vertexLogRetrieval, vertexMessage vertexFailureEnv] ++ after ∧
      (HelloTriangle.main { vertexFailureEnv with vertexOk := true }).trace
        = before ++ [vertexStatusCheck] ++ after) ∧
    (HelloTriangle.main vertexFailureEnv).trace.length
      = (HelloTriangle.main { vertexFailureEnv with vertexOk := true }).trace.length + 2 :=
  ⟨by decide, by decide, by decide,
    (C3_stages_attached_whatever_status vertexFailureEnv (by decide) (by decide)).1,
    (C3_stages_attached_whatever_status vertexFailureEnv (by decide) (by decide)).2.1,
    by decide⟩

theorem HelloTriangle_iteration_counts (f : Frame) :
    (HelloTriangle.iteration f false).1.count useProgram = 1 ∧
    (HelloTriangle.iteration f false).1.count drawElements = 1 ∧
    (HelloTriangle.iteration f false).1.count shouldCloseTest = 0 := by
  rcases f with ⟨esc, t, loc, rs, cl⟩
  cases esc <;> rcases rs with _ | ⟨w, h⟩ <;>
    simp [HelloTriangle.iteration, processInput, pollEvents, framebuffer_size_callback,
      List.count_cons, useProgram, drawElements, shouldCloseTest]

theorem ShadersPart1_iteration_counts (f : Frame) :
    (ShadersPart1.iteration f false).1.count useProgram = 1 ∧
    (ShadersPart1.iteration f false).1.count drawArrays = 1 ∧
    (ShadersPart1.iteration f false).1.count shouldCloseTest = 0 := by
  rcases f with ⟨esc, t, loc, rs, cl⟩
  cases esc <;> rcases rs with _ | ⟨w, h⟩ <;>
    simp [ShadersPart1.iteration, processInput, pollEvents, framebuffer_size_callback,
      List.count_cons, useProgram, drawArrays, shouldCloseTest]

theorem not_mem_of_fn {l : List Call} {L : List Fn} (h : ∀ c ∈ l, c.fn ∈ L) {c : Call}
    (hc : c.fn ∉ L) : c ∉ l :=
  fun hm => hc (h c hm)

theorem prelude_fns (apple : Bool) :
    ∀ c ∈ glfwSetup apple ++ [createWindow] ++ makeCurrent ++ [gladLoad], c.fn ∈ preludeFns := by
  cases apple <;> decide

theorem build_fns (env : Env) : ∀ c ∈ buildShaderProgram env, c.fn ∈ buildFns := by
  cases hv : env.vertexOk <;> cases hf : env.fragmentOk <;> cases hl : env.linkOk <;>
    simp [buildShaderProgram, compileVertex, vertexDiagnostic, compileFragment,
      fragmentDiagnostic, linkStages, linkDiagnostic, deleteStages, hv, hf, hl, buildFns]

theorem HelloTriangle_iteration_fns (f : Frame) :
    ∀ c ∈ (HelloTriangle.iteration f false).1,
      c.fn ∈ loopFns ∧ ∀ v, Arg.val v ∈ c.args → v ∈ loopVars := by
  rcases f with ⟨esc, t, loc, rs, cl⟩
  cases esc <;> rcases rs with _ | ⟨w, h⟩ <;>
    simp [HelloTriangle.iteration, processInput, pollEvents, framebuffer_size_callback,
      loopFns, loopVars]

theorem ShadersPart1_iteration_fns (f : Frame) :
    ∀ c ∈ (ShadersPart1.iteration f false).1,
      c.fn ∈ loopFns ∧ ∀ v, Arg.val v ∈ c.args → v ∈ loopVars := by
  rcases f with ⟨esc, t, loc, rs, cl⟩
  cases esc <;> rcases rs with _ | ⟨w, h⟩ <;>
    simp [ShadersPart1.iteration, processInput, pollEvents, framebuffer_size_callback,
      loopFns, loopVars]

theorem HelloTriangle_loop_fns (sc : Bool) (fs : List Frame) :
    ∀ c ∈ (renderLoop HelloTriangle.iteration sc fs).1,
      c.fn ∈ loopFns ∧ ∀ v, Arg.val v ∈ c.args → v ∈ loopVars :=
  renderLoop_forall _ _ (by simp [shouldCloseTest, loopFns, loopVars])
    HelloTriangle_iteration_fns sc fs

theorem ShadersPart1_loop_fns (sc : Bool) (fs : List Frame) :
    ∀ c ∈ (renderLoop ShadersPart1.iteration sc fs).1,
      c.fn ∈ loopFns ∧ ∀ v, Arg.val v ∈ c.args → v ∈ loopVars :=
  renderLoop_forall _ _ (by simp [shouldCloseTest, loopFns, loopVars])
    ShadersPart1_iteration_fns sc fs

theorem HelloTriangle_loop_draws {fs : List Frame} (h : fs ≠ []) :
    List.Sublist [useProgram, drawElements] (renderLoop HelloTriangle.iteration false fs).1 := by
  cases fs with
  | nil => exact absurd rfl h
  | cons f fs =>
    have h6 : List.Sublist [useProgram, drawElements]
        [ (⟨.glClearColor, [.flt 2 10, .flt 3 10, .flt 3 10, .flt 1 1]⟩ : Call),
          ⟨.glClear, [.const .GL_COLOR_BUFFER_BIT]⟩,
          ⟨.glUseProgram, [.val .shaderProgram]⟩,
          ⟨.glBindVertexArray, [.val .VAO]⟩,
          ⟨.glDrawElements, [.const .GL_TRIANGLES, .int 6, .const .GL_UNSIGNED_INT, .int 0]⟩,
          ⟨.glfwSwapBuffers, [.val .window]⟩ ] := by decide
    simp only [renderLoop, HelloTriangle.iteration]
    exact List.Sublist.cons _ (List.sublist_append_of_sublist_left
      (List.sublist_append_of_sublist_left (List.sublist_append_of_sublist_right h6)))

theorem ShadersPart1_loop_draws {fs : List Frame} (h : fs ≠ []) :
    List.Sublist [useProgram, drawArrays] (renderLoop ShadersPart1.iteration false fs).1 := by
  cases fs with
  | nil => exact absurd rfl h
  | cons f fs =>
    have h8 : List.Sublist [useProgram, drawArrays]
        [ (⟨.glClearColor, [.flt 2 10, .flt 3 10, .flt 3 10, .flt 1 1]⟩ : Call),
          ⟨.glClear, [.const .GL_COLOR_BUFFER_BIT]⟩,
          ⟨.glUseProgram, [.val .shaderProgram]⟩,
          ⟨.glfwGetTime, []⟩,
          ⟨.glGetUniformLocation, [.val .shaderProgram, .str "ourColor"]⟩,
          ⟨.glUniform4f, [.int f.uniformLocation, .flt 0 1, .green f.timeValue,
                          .flt 0 1, .flt 1 1]⟩,
          ⟨.glDrawArrays, [.const .GL_TRIANGLES, .int 0, .int 3]⟩,
          ⟨.glfwSwapBuffers, [.val .window]⟩ ] :=
      List.Sublist.cons _ (List.Sublist.cons _ (List.Sublist.cons₂ _ (List.Sublist.cons _
        (List.Sublist.cons _ (List.Sublist.cons _ (List.Sublist.cons₂ _
          (List.nil_sublist _)))))))
    simp only [renderLoop, ShadersPart1.iteration]
    exact List.Sublist.cons _ (List.sublist_append_of_sublist_left
      (List.sublist_append_of_sublist_left (List.sublist_append_of_sublist_right h8)))

/-- The straight-line code before the buffer setup issues no `glUseProgram`, no
draw and no loop test. -/
theorem straight_count_zero (env : Env) (c : Call)
    (hc : c.fn ∉ preludeFns ∧ c.fn ∉ buildFns) :
    (glfwSetup env.apple ++ [createWindow] ++ makeCurrent ++ [gladLoad]
      ++ buildShaderProgram env).count c = 0 := by
  rw [List.count_append, List.count_eq_zero.2 (not_mem_of_fn (prelude_fns env.apple) hc.1),
    List.count_eq_zero.2 (not_mem_of_fn (build_fns env) hc.2)]

theorem HelloTriangle_count (env : Env) (hw : env.windowOk = true) (hg : env.gladOk = true)
    (c : Call) (hc : c.fn ∉ preludeFns ∧ c.fn ∉ buildFns)
    (hs : HelloTriangle.setupBuffers.count c = 0) (ht : HelloTriangle.teardown.count c = 0) :
    (HelloTriangle.main env).trace.count c
      = (renderLoop HelloTriangle.iteration false env.frames).1.count c := by
  rw [HelloTriangle_trace env hw hg, List.count_append, List.count_append, List.count_append,
    straight_count_zero env c hc, hs]
  cases (renderLoop HelloTriangle.iteration false env.frames).2 <;> simp [ht]

theorem ShadersPart1_count (env : Env) (hw : env.windowOk = true) (hg : env.gladOk = true)
    (c : Call) (hc : c.fn ∉ preludeFns ∧ c.fn ∉ buildFns)
    (hs : ShadersPart1.setupBuffers.count c = 0) (ht : ShadersPart1.teardown.count c = 0) :
    (ShadersPart1.main env).trace.count c
      = (renderLoop ShadersPart1.iteration false env.frames).1.count c := by
  rw [ShadersPart1_trace env hw hg, List.count_append, List.count_append, List.count_append,
    straight_count_zero env c hc, hs]
  cases (renderLoop ShadersPart1.iteration false env.frames).2 <;> simp [ht]

/-- C4 (counterexample): with a failed link status, both programs still pass the
program handle to `glUseProgram` after the status check and issue the draw call. -/
theorem C4_counterexample :
    linkFailureEnv.linkOk = false ∧
    List.Sublist [linkStatusCheck, useProgram, drawElements]
      (HelloTriangle.main linkFailureEnv).trace ∧
    List.Sublist [linkStatusCheck, useProgram, drawArrays]
      (ShadersPart1.main linkFailureEnv).trace := by
  decide

/-- C4 (amended): in HelloTriangle and ShadersPart1, whatever the link status,
every run that gets past window creation and loader initialization passes the
program handle to `glUseProgram` and issues the draw call once in every loop
iteration it starts (one less than the number of loop tests), and when at least
one frame is supplied both calls come after the link status check; and a failed
link status only causes the program's info log to be retrieved and printed: the
run issues exactly the calls of the run in which the link status is a success,
with the retrieval and the tagged print inserted right after the status query. -/
theorem C4_program_used_whatever_status (env : Env)
    (hw : env.windowOk = true) (hg : env.gladOk = true) :
    ((HelloTriangle.main env).trace.count useProgram + 1
        = (HelloTriangle.main env).trace.count shouldCloseTest ∧
     (HelloTriangle.main env).trace.count drawElements + 1
        = (HelloTriangle.main env).trace.count shouldCloseTest ∧
     (env.frames ≠ [] → List.Sublist [linkStatusCheck, useProgram, drawElements]
        (HelloTriangle.main env).trace)) ∧
    ((ShadersPart1.main env).trace.count useProgram + 1
        = (ShadersPart1.main env).trace.count shouldCloseTest ∧
     (ShadersPart1.main env).trace.count drawArrays + 1
        = (ShadersPart1.main env).trace.count shouldCloseTest ∧
     (env.frames ≠ [] → List.Sublist [linkStatusCheck, useProgram, drawArrays]
        (ShadersPart1.main env).trace)) ∧
    (∃ before after,
      (HelloTriangle.main env).trace
        = before ++ [linkStatusCheck]
            ++ (if env.linkOk then [] else [linkLogRetrieval, linkMessage env])
            ++ after ∧
      (HelloTriangle.main { env with linkOk := true }).trace
        = before ++ [linkStatusCheck] ++ after) ∧
    (∃ before after,
      (ShadersPart1.main env).trace
        = before ++ [linkStatusCheck]
            ++ (if env.linkOk then [] else [linkLogRetrieval, linkMessage env])
            ++ after ∧
      (ShadersPart1.main { env with linkOk := true }).trace
        = before ++ [linkStatusCheck] ++ after) := by
  have hlink : List.Sublist [linkStatusCheck] (buildShaderProgram env) :=
    List.Sublist.trans (by decide) (build_checks_attach_link env)
  obtain ⟨tH, tS⟩ := traces_around_build env hw hg
  obtain ⟨tHl, tSl⟩ := traces_around_build { env with linkOk := true } hw hg
  have hl : linkDiagnostic env
      = if env.linkOk then [] else [linkLogRetrieval, linkMessage env] := by
    cases h : env.linkOk <;> simp [linkDiagnostic, h, linkLogRetrieval, linkMessage]
  refine ⟨⟨?_, ?_, ?_⟩, ⟨?_, ?_, ?_⟩, ?_, ?_⟩
  · rw [HelloTriangle_count env hw hg useProgram (by decide) (by decide) (by decide),
      HelloTriangle_count env hw hg shouldCloseTest (by decide) (by decide) (by decide)]
    exact renderLoop_count _ _ (by decide) (fun f => (HelloTriangle_iteration_counts f).1)
      (fun f => (HelloTriangle_iteration_counts f).2.2) _ _
  · rw [HelloTriangle_count env hw hg drawElements (by decide) (by decide) (by decide),
      HelloTriangle_count env hw hg shouldCloseTest (by decide) (by decide) (by decide)]
    exact renderLoop_count _ _ (by decide) (fun f => (HelloTriangle_iteration_counts f).2.1)
      (fun f => (HelloTriangle_iteration_counts f).2.2) _ _
  · intro hfs
    rw [HelloTriangle_trace env hw hg]
    exact List.sublist_append_of_sublist_left
      (List.Sublist.append (List.sublist_append_of_sublist_left
        (List.sublist_append_of_sublist_right hlink)) (HelloTriangle_loop_draws hfs))
  · rw [ShadersPart1_count env hw hg useProgram (by decide) (by decide) (by decide),
      ShadersPart1_count env hw hg shouldCloseTest (by decide) (by decide) (by decide)]
    exact renderLoop_count _ _ (by decide) (fun f => (ShadersPart1_iteration_counts f).1)
      (fun f => (ShadersPart1_iteration_counts f).2.2) _ _
  · rw [ShadersPart1_count env hw hg drawArrays (by decide) (by decide) (by decide),
      ShadersPart1_count env hw hg shouldCloseTest (by decide) (by decide) (by decide)]
    exact renderLoop_count _ _ (by decide) (fun f => (ShadersPart1_iteration_counts f).2.1)
      (fun f => (ShadersPart1_iteration_counts f).2.2) _ _
  · intro hfs
    rw [ShadersPart1_trace env hw hg]
    exact List.sublist_append_of_sublist_left
      (List.Sublist.append (List.sublist_append_of_sublist_left
        (List.sublist_append_of_sublist_right hlink)) (ShadersPart1_loop_draws hfs))
  · obtain ⟨b, a, h1, h2⟩ := link_status_only_adds_diagnostic env _ _
    exact ⟨b, a, hl ▸ tH.trans h1, tHl.trans h2⟩
  · obtain ⟨b, a, h1, h2⟩ := link_status_only_adds_diagnostic env _ _
    exact ⟨b, a, hl ▸ tS.trans h1, tSl.trans h2⟩

/-- Witness of `C4_program_used_whatever_status` on the run whose link fails. -/
theorem C4_program_used_witness :
    linkFailureEnv.windowOk = true ∧ linkFailureEnv.gladOk = true ∧
    linkFailureEnv.linkOk = false ∧
    (HelloTriangle.main linkFailureEnv).trace.count useProgram + 1
        = (HelloTriangle.main linkFailureEnv).trace.count shouldCloseTest ∧
    (ShadersPart1.main linkFailureEnv).trace.count drawArrays + 1
        = (ShadersPart1.main linkFailureEnv).trace.count shouldCloseTest ∧
    (∃ before after,
      (HelloTriangle.main linkFailureEnv).trace
        = before ++ [linkStatusCheck]
            ++ [linkLogRetrieval, linkMessage linkFailureEnv] ++ after ∧
      (HelloTriangle.main { linkFailureEnv with linkOk := true }).trace
        = before ++ [linkStatusCheck] ++ after) ∧
    (HelloTriangle.main linkFailureEnv).trace.length
      = (HelloTriangle.main { linkFailureEnv with linkOk := true }).trace.length + 2 :=
  ⟨by decide, by decide, by decide,
    (C4_program_used_whatever_status linkFailureEnv (by decide) (by decide)).1.1,
    (C4_program_used_whatever_status linkFailureEnv (by decide) (by decide)).2.1.2.1,
    (C4_program_used_whatever_status linkFailureEnv (by decide) (by decide)).2.2.1,
    by decide⟩

theorem filter_nil_of_fn {l : List Call} {L K : List Fn} (h : ∀ c ∈ l, c.fn ∈ L)
    (p : Call → Bool) (hp : ∀ c, p c = true → c.fn ∈ K) (hd : ∀ x ∈ K, x ∉ L) :
    l.filter p = [] := by
  rw [List.filter_eq_nil_iff]
  intro c hc hpc
  exact hd _ (hp c hpc) (h c hc)

/-- In HelloTriangle, diagnostics are retrieved and printed by the shader build
section only. -/
theorem HelloTriangle_filter_build (env : Env) (hw : env.windowOk = true)
    (hg : env.gladOk = true) (p : Call → Bool) (hp : ∀ c, p c = true → c.fn ∈ diagnosticFns) :
    (HelloTriangle.main env).trace.filter p = (buildShaderProgram env).filter p := by
  have h1 := filter_nil_of_fn (prelude_fns env.apple) p hp (by decide)
  have h2 : HelloTriangle.setupBuffers.filter p = [] :=
    filter_nil_of_fn (L := loopFns ++ [.glGenVertexArrays, .glGenBuffers, .glBindBuffer,
      .glBufferData, .glVertexAttribPointer, .glEnableVertexAttribArray])
      (by decide) p hp (by decide)
  have h3 := filter_nil_of_fn (fun c hc => (HelloTriangle_loop_fns false env.frames c hc).1)
    p hp (by decide)
  have h4 : (if (renderLoop HelloTriangle.iteration false env.frames).2
      then HelloTriangle.teardown else []).filter p = [] := by
    cases (renderLoop HelloTriangle.iteration false env.frames).2
    · rfl
    · exact filter_nil_of_fn (L := [.glDeleteVertexArrays, .glDeleteBuffers, .glDeleteProgram,
        .glfwTerminate]) (by decide) p hp (by decide)
  rw [HelloTriangle_trace env hw hg]
  simp only [List.filter_append, h1, h2, h3, h4, List.nil_append, List.append_nil]

/-- In ShadersPart1, diagnostics are retrieved and printed by the shader build
section only. -/
theorem ShadersPart1_filter_build (env : Env) (hw : env.windowOk = true)
    (hg : env.gladOk = true) (p : Call → Bool) (hp : ∀ c, p c = true → c.fn ∈ diagnosticFns) :
    (ShadersPart1.main env).trace.filter p = (buildShaderProgram env).filter p := by
  have h1 := filter_nil_of_fn (prelude_fns env.apple) p hp (by decide)
  have h2 : ShadersPart1.setupBuffers.filter p = [] :=
    filter_nil_of_fn (L := loopFns ++ [.glGenVertexArrays, .glGenBuffers, .glBindBuffer,
      .glBufferData, .glVertexAttribPointer, .glEnableVertexAttribArray])
      (by decide) p hp (by decide)
  have h3 := filter_nil_of_fn (fun c hc => (ShadersPart1_loop_fns false env.frames c hc).1)
    p hp (by decide)
  have h4 : (if (renderLoop ShadersPart1.iteration false env.frames).2
      then ShadersPart1.teardown else []).filter p = [] := by
    cases (renderLoop ShadersPart1.iteration false env.frames).2
    · rfl
    · exact filter_nil_of_fn (L := [.glDeleteVertexArrays, .glDeleteBuffers, .glDeleteProgram,
        .glfwTerminate]) (by decide) p hp (by decide)
  rw [ShadersPart1_trace env hw hg]
  simp only [List.filter_append, h1, h2, h3, h4, List.nil_append, List.append_nil]

theorem isDiagnostic_fn (tag : String) : ∀ c, isDiagnostic tag c = true → c.fn ∈ diagnosticFns := by
  intro c h
  simp only [isDiagnostic, Bool.and_eq_true, beq_iff_eq] at h
  simp [diagnosticFns, h.1]

theorem isLogRetrieval_fn (v : Var) : ∀ c, isLogRetrieval v c = true → c.fn ∈ diagnosticFns := by
  intro c h
  simp only [isLogRetrieval, Bool.and_eq_true, Bool.or_eq_true, beq_iff_eq] at h
  rcases h.1 with h | h <;> simp [diagnosticFns, h]

theorem isCout_fn : ∀ c, isCout c = true → c.fn ∈ diagnosticFns := by
  intro c h
  simp only [isCout, beq_iff_eq] at h
  simp [diagnosticFns, h]

theorem build_filter (env : Env) (p : Call → Bool)
    (hp : ∀ c, p c = true → c.fn ∈ diagnosticFns) :
    (buildShaderProgram env).filter p
      = (vertexDiagnostic env).filter p ++ (fragmentDiagnostic env).filter p
          ++ (linkDiagnostic env).filter p := by
  have h1 : compileVertex.filter p = [] :=
    filter_nil_of_fn (L := buildFns.filter (fun x => !diagnosticFns.contains x))
      (by decide) p hp (by decide)
  have h2 : compileFragment.filter p = [] :=
    filter_nil_of_fn (L := buildFns.filter (fun x => !diagnosticFns.contains x))
      (by decide) p hp (by decide)
  have h3 : linkStages.filter p = [] :=
    filter_nil_of_fn (L := buildFns.filter (fun x => !diagnosticFns.contains x))
      (by decide) p hp (by decide)
  have h4 : deleteStages.filter p = [] :=
    filter_nil_of_fn (L := buildFns.filter (fun x => !diagnosticFns.contains x))
      (by decide) p hp (by decide)
  simp only [buildShaderProgram, List.filter_append, h1, h2, h3, h4, List.nil_append,
    List.append_nil]

theorem vertexDiagnostic_filters (env : Env) :
    ((vertexDiagnostic env).filter (isDiagnostic "ERROR::SHADER::VERTEX::COMPILATION_FAILED\n")
        = if env.vertexOk then [] else [vertexMessage env]) ∧
    ((vertexDiagnostic env).filter (isLogRetrieval .vertexShader)
        = if env.vertexOk then [] else [vertexLogRetrieval]) ∧
    ((vertexDiagnostic env).filter
        (isDiagnostic "ERROR::SHADER::FRAGMENT::COMPILATION_FAILED\n") = []) ∧
    ((vertexDiagnostic env).filter (isLogRetrieval .fragmentShader) = []) ∧
    ((vertexDiagnostic env).filter
        (isDiagnostic "ERROR::SHADER::PROGRAM::LINKING_FAILED\n") = []) ∧
    ((vertexDiagnostic env).filter (isLogRetrieval .shaderProgram) = []) ∧
    ((vertexDiagnostic env).filter isCout
        = if env.vertexOk then [] else [vertexMessage env]) := by
  cases hv : env.vertexOk <;>
    simp [vertexDiagnostic, hv, List.filter_cons, isDiagnostic, isLogRetrieval, isCout,
      vertexMessage, vertexLogRetrieval]

theorem fragmentDiagnostic_filters (env : Env) :
    ((fragmentDiagnostic env).filter
        (isDiagnostic "ERROR::SHADER::VERTEX::COMPILATION_FAILED\n") = []) ∧
    ((fragmentDiagnostic env).filter (isLogRetrieval .vertexShader) = []) ∧
    ((fragmentDiagnostic env).filter
        (isDiagnostic "ERROR::SHADER::FRAGMENT::COMPILATION_FAILED\n")
        = if env.fragmentOk then [] else [fragmentMessage env]) ∧
    ((fragmentDiagnostic env).filter (isLogRetrieval .fragmentShader)
        = if env.fragmentOk then [] else [fragmentLogRetrieval]) ∧
    ((fragmentDiagnostic env).filter
        (isDiagnostic "ERROR::SHADER::PROGRAM::LINKING_FAILED\n") = []) ∧
    ((fragmentDiagnostic env).filter (isLogRetrieval .shaderProgram) = []) ∧
    ((fragmentDiagnostic env).filter isCout
        = if env.fragmentOk then [] else [fragmentMessage env]) := by
  cases hf : env.fragmentOk <;>
    simp [fragmentDiagnostic, hf, List.filter_cons, isDiagnostic, isLogRetrieval, isCout,
      fragmentMessage, fragmentLogRetrieval]

theorem linkDiagnostic_filters (env : Env) :
    ((linkDiagnostic env).filter
        (isDiagnostic "ERROR::SHADER::VERTEX::COMPILATION_FAILED\n") = []) ∧
    ((linkDiagnostic env).filter (isLogRetrieval .vertexShader) = []) ∧
    ((linkDiagnostic env).filter
        (isDiagnostic "ERROR::SHADER::FRAGMENT::COMPILATION_FAILED\n") = []) ∧
    ((linkDiagnostic env).filter (isLogRetrieval .fragmentShader) = []) ∧
    ((linkDiagnostic env).filter (isDiagnostic "ERROR::SHADER::PROGRAM::LINKING_FAILED\n")
        = if env.linkOk then [] else [linkMessage env]) ∧
    ((linkDiagnostic env).filter (isLogRetrieval .shaderProgram)
        = if env.linkOk then [] else [linkLogRetrieval]) ∧
    ((linkDiagnostic env).filter isCout
        = if env.linkOk then [] else [linkMessage env]) := by
  cases hl : env.linkOk <;>
    simp [linkDiagnostic, hl, List.filter_cons, isDiagnostic, isLogRetrieval, isCout,
      linkMessage, linkLogRetrieval]

/-- C5: in HelloTriangle and ShadersPart1, in every run that reaches the shader
build, each of the three status checks has its object's info log retrieved, and
printed behind its own tag (`ERROR::SHADER::VERTEX::COMPILATION_FAILED`,
`ERROR::SHADER::FRAGMENT::COMPILATION_FAILED`, `ERROR::SHADER::PROGRAM::LINKING_FAILED`),
exactly once when that check reported failure and not at all when it succeeded;
a failed vertex compile gives non-empty output, and when all three checks succeed
nothing is printed. -/
theorem C5_diagnostics_iff_failure (env : Env)
    (hw : env.windowOk = true) (hg : env.gladOk = true) (t : List Call)
    (ht : t = (HelloTriangle.main env).trace ∨ t = (ShadersPart1.main env).trace) :
    (t.filter (isDiagnostic "ERROR::SHADER::VERTEX::COMPILATION_FAILED\n")
        = if env.vertexOk then [] else [vertexMessage env]) ∧
    (t.filter (isLogRetrieval .vertexShader)
        = if env.vertexOk then [] else [vertexLogRetrieval]) ∧
    (t.filter (isDiagnostic "ERROR::SHADER::FRAGMENT::COMPILATION_FAILED\n")
        = if env.fragmentOk then [] else [fragmentMessage env]) ∧
    (t.filter (isLogRetrieval .fragmentShader)
        = if env.fragmentOk then [] else [fragmentLogRetrieval]) ∧
    (t.filter (isDiagnostic "ERROR::SHADER::PROGRAM::LINKING_FAILED\n")
        = if env.linkOk then [] else [linkMessage env]) ∧
    (t.filter (isLogRetrieval .shaderProgram)
        = if env.linkOk then [] else [linkLogRetrieval]) ∧
    (env.vertexOk = false → stdoutText t ≠ []) ∧
    (env.vertexOk = true → env.fragmentOk = true → env.linkOk = true →
        t.filter isCout = [] ∧ stdoutText t = []) := by
  have key : ∀ p : Call → Bool, (∀ c, p c = true → c.fn ∈ diagnosticFns) →
      t.filter p = (vertexDiagnostic env).filter p ++ (fragmentDiagnostic env).filter p
          ++ (linkDiagnostic env).filter p := by
    intro p hp
    rcases ht with rfl | rfl
    · rw [HelloTriangle_filter_build env hw hg p hp, build_filter env p hp]
    · rw [ShadersPart1_filter_build env hw hg p hp, build_filter env p hp]
  obtain ⟨v1, v2, v3, v4, v5, v6, v7⟩ := vertexDiagnostic_filters env
  obtain ⟨f1, f2, f3, f4, f5, f6, f7⟩ := fragmentDiagnostic_filters env
  obtain ⟨l1, l2, l3, l4, l5, l6, l7⟩ := linkDiagnostic_filters env
  refine ⟨?_, ?_, ?_, ?_, ?_, ?_, ?_, ?_⟩
  · rw [key _ (isDiagnostic_fn _), v1, f1, l1, List.append_nil, List.append_nil]
  · rw [key _ (isLogRetrieval_fn _), v2, f2, l2, List.append_nil, List.append_nil]
  · rw [key _ (isDiagnostic_fn _), v3, f3, l3, List.append_nil, List.nil_append]
  · rw [key _ (isLogRetrieval_fn _), v4, f4, l4, List.append_nil, List.nil_append]
  · rw [key _ (isDiagnostic_fn _), v5, f5, l5, List.nil_append, List.nil_append]
  · rw [key _ (isLogRetrieval_fn _), v6, f6, l6, List.nil_append, List.nil_append]
  · intro hv hnil
    have hE : 'E' ∈ stdoutText t := by
      unfold stdoutText
      rw [key _ isCout_fn, v7, hv, List.mem_flatMap]
      refine ⟨vertexMessage env, by simp, ?_⟩
      have : 'E' ∈ "ERROR::SHADER::VERTEX::COMPILATION_FAILED\n".data := by decide
      simp [vertexMessage, Arg.text, List.flatMap_cons, this]
    rw [hnil] at hE
    exact absurd hE (List.not_mem_nil _)
  · intro hv hf hl
    have hc : t.filter isCout = [] := by
      rw [key _ isCout_fn, v7, f7, l7, hv, hf, hl]
      rfl
    exact ⟨hc, by unfold stdoutText; rw [hc]; rfl⟩

/-- Witness of `C5_diagnostics_iff_failure` on the HelloTriangle run whose vertex
stage fails to compile. -/
theorem C5_diagnostics_witness :
    vertexFailureEnv.windowOk = true ∧ vertexFailureEnv.gladOk = true ∧
    ((HelloTriangle.main vertexFailureEnv).trace.filter
        (isDiagnostic "ERROR::SHADER::VERTEX::COMPILATION_FAILED\n")
      = if vertexFailureEnv.vertexOk then [] else [vertexMessage vertexFailureEnv]) ∧
    stdoutText (HelloTriangle.main vertexFailureEnv).trace ≠ [] :=
  ⟨by decide, by decide,
    (C5_diagnostics_iff_failure vertexFailureEnv (by decide) (by decide) _ (Or.inl rfl)).1,
    (C5_diagnostics_iff_failure vertexFailureEnv (by decide) (by decide) _
      (Or.inl rfl)).2.2.2.2.2.2.1 (by decide)⟩

theorem beforeDelete_fns (env : Env) :
    ∀ c ∈ beforeDelete env, c.fn ∈ preludeFns ++ buildFns.erase .glDeleteShader := by
  intro c hc
  rw [beforeDelete, List.mem_append] at hc
  rcases hc with hc | hc
  · exact List.mem_append_left _ (prelude_fns env.apple c hc)
  · refine List.mem_append_right _ ?_
    revert c
    cases hv : env.vertexOk <;> cases hf : env.fragmentOk <;> cases hl : env.linkOk <;>
      simp [compileVertex, vertexDiagnostic, compileFragment, fragmentDiagnostic, linkStages,
        linkDiagnostic, hv, hf, hl, buildFns]

theorem linkProgram_mem_beforeDelete (env : Env) : linkProgram ∈ beforeDelete env := by
  have h : linkProgram ∈ linkStages := by decide
  simp [beforeDelete, h]

/-- Layout of a run of HelloTriangle or ShadersPart1 around the two
`glDeleteShader` calls. -/
theorem split_at_delete (env : Env) (hw : env.windowOk = true) (hg : env.gladOk = true)
    (t : List Call)
    (ht : t = (HelloTriangle.main env).trace ∨ t = (ShadersPart1.main env).trace) :
    ∃ post, t = beforeDelete env ++ deleteVertex :: deleteFragment :: post ∧
      ∀ c ∈ post, ∀ v, Arg.val v ∈ c.args → v ∈ afterDeleteVars := by
  rcases ht with rfl | rfl
  · refine ⟨HelloTriangle.setupBuffers
        ++ (renderLoop HelloTriangle.iteration false env.frames).1
        ++ (if (renderLoop HelloTriangle.iteration false env.frames).2
              then HelloTriangle.teardown else []), ?_, ?_⟩
    · rw [HelloTriangle_trace env hw hg]
      simp [beforeDelete, buildShaderProgram, deleteStages, deleteVertex, deleteFragment,
        List.append_assoc]
    · intro c hc
      rw [List.mem_append, List.mem_append] at hc
      rcases hc with (hc | hc) | hc
      · revert c
        simp [HelloTriangle.setupBuffers, afterDeleteVars]
      · intro v hv
        have := (HelloTriangle_loop_fns false env.frames c hc).2 v hv
        simp only [loopVars, List.mem_cons, List.mem_singleton, List.not_mem_nil,
          or_false] at this
        rcases this with rfl | rfl | rfl <;> simp [afterDeleteVars]
      · revert c
        cases (renderLoop HelloTriangle.iteration false env.frames).2
        · simp
        · simp [HelloTriangle.teardown, afterDeleteVars]
  · refine ⟨ShadersPart1.setupBuffers
        ++ (renderLoop ShadersPart1.iteration false env.frames).1
        ++ (if (renderLoop ShadersPart1.iteration false env.frames).2
              then ShadersPart1.teardown else []), ?_, ?_⟩
    · rw [ShadersPart1_trace env hw hg]
      simp [beforeDelete, buildShaderProgram, deleteStages, deleteVertex, deleteFragment,
        List.append_assoc]
    · intro c hc
      rw [List.mem_append, List.mem_append] at hc
      rcases hc with (hc | hc) | hc
      · revert c
        simp [ShadersPart1.setupBuffers, afterDeleteVars]
      · intro v hv
        have := (ShadersPart1_loop_fns false env.frames c hc).2 v hv
        simp only [loopVars, List.mem_cons, List.mem_singleton, List.not_mem_nil,
          or_false] at this
        rcases this with rfl | rfl | rfl <;> simp [afterDeleteVars]
      · revert c
        cases (renderLoop ShadersPart1.iteration false env.frames).2
        · simp
        · simp [ShadersPart1.teardown, afterDeleteVars]

theorem isDeleteOf_fn (v : Var) : ∀ c, isDeleteOf v c = true → c.fn ∈ [Fn.glDeleteShader] := by
  intro c h
  simp only [isDeleteOf, Bool.and_eq_true, beq_iff_eq] at h
  simp [h.1]

theorem beforeDelete_no_delete (env : Env) (v : Var) :
    (beforeDelete env).filter (isDeleteOf v) = [] :=
  filter_nil_of_fn (beforeDelete_fns env) _ (isDeleteOf_fn v) (by decide)

theorem no_delete_of_vars {post : List Call} {v : Var}
    (h : ∀ c ∈ post, ∀ w, Arg.val w ∈ c.args → w ∈ afterDeleteVars)
    (hv : v ∉ afterDeleteVars) :
    (∀ c ∈ post, Arg.val v ∉ c.args) ∧ post.filter (isDeleteOf v) = [] := by
  have h1 : ∀ c ∈ post, Arg.val v ∉ c.args := fun c hc hm => hv (h c hc v hm)
  refine ⟨h1, ?_⟩
  rw [List.filter_eq_nil_iff]
  intro c hc hd
  simp [isDeleteOf] at hd
  exact h1 c hc hd.2

/-- C6: in HelloTriangle and ShadersPart1, in every run that reaches the shader
build and for every combination of compile and link statuses, each of the two
stage handles is deleted by exactly one `glDeleteShader` call, that call comes
after `glLinkProgram`, and no call after it is passed the deleted handle. -/
theorem C6_stage_handles_deleted_once (env : Env)
    (hw : env.windowOk = true) (hg : env.gladOk = true) (t : List Call)
    (ht : t = (HelloTriangle.main env).trace ∨ t = (ShadersPart1.main env).trace) :
    (t.filter (isDeleteOf .vertexShader)).length = 1 ∧
    (t.filter (isDeleteOf .fragmentShader)).length = 1 ∧
    (∃ pre post, t = pre ++ deleteVertex :: post ∧ linkProgram ∈ pre ∧
        ∀ c ∈ post, Arg.val .vertexShader ∉ c.args) ∧
    (∃ pre post, t = pre ++ deleteFragment :: post ∧ linkProgram ∈ pre ∧
        ∀ c ∈ post, Arg.val .fragmentShader ∉ c.args) := by
  obtain ⟨post, hsplit, hvars⟩ := split_at_delete env hw hg t ht
  obtain ⟨hv1, hv2⟩ := no_delete_of_vars (v := .vertexShader) hvars (by decide)
  obtain ⟨hf1, hf2⟩ := no_delete_of_vars (v := .fragmentShader) hvars (by decide)
  have hlink := linkProgram_mem_beforeDelete env
  refine ⟨?_, ?_, ⟨beforeDelete env, deleteFragment :: post, hsplit, hlink, ?_⟩,
    ⟨beforeDelete env ++ [deleteVertex], post, ?_, ?_, hf1⟩⟩
  · rw [hsplit, List.filter_append, beforeDelete_no_delete, List.filter_cons,
      List.filter_cons, hv2]
    rfl
  · rw [hsplit, List.filter_append, beforeDelete_no_delete, List.filter_cons,
      List.filter_cons, hf2]
    rfl
  · intro c hc
    rcases List.mem_cons.1 hc with rfl | hc
    · decide
    · exact hv1 c hc
  · rw [hsplit]; simp
  · exact List.mem_append_left _ hlink

/-- Witness of `C6_stage_handles_deleted_once` on the ShadersPart1 run whose
vertex stage fails to compile. -/
theorem C6_stage_handles_witness :
    vertexFailureEnv.windowOk = true ∧ vertexFailureEnv.gladOk = true ∧
    ((ShadersPart1.main vertexFailureEnv).trace.filter (isDeleteOf .vertexShader)).length = 1 ∧
    ((ShadersPart1.main vertexFailureEnv).trace.filter (isDeleteOf .fragmentShader)).length
      = 1 :=
  ⟨by decide, by decide,
    (C6_stage_handles_deleted_once vertexFailureEnv (by decide) (by decide) _ (Or.inr rfl)).1,
    (C6_stage_handles_deleted_once vertexFailureEnv (by decide) (by decide) _
      (Or.inr rfl)).2.1⟩

theorem texturepart1_trace (env : Env) (hw : env.windowOk = true) :
    (texturepart1.main env).trace
      = glfwSetup env.apple ++ [createWindow] ++ makeCurrent ++ [texturepart1.constructShader]
          ++ texturepart1.setupBuffers ++ texturepart1.setupTexture
          ++ texturepart1.loadTexture env.image
          ++ (renderLoop texturepart1.iteration false env.frames).1 := by
  simp [texturepart1.main, hw]

theorem texturepart1_iteration_fns (f : Frame) :
    ∀ c ∈ (texturepart1.iteration f false).1,
      c.fn ∈ textureLoopFns ∧ ∀ v, Arg.val v ∈ c.args → v ∈ textureLoopVars := by
  rcases f with ⟨esc, t, loc, rs, cl⟩
  rcases rs with _ | ⟨w, h⟩ <;>
    simp [texturepart1.iteration, pollEvents, framebuffer_size_callback, textureLoopFns,
      textureLoopVars]

theorem texturepart1_loop_fns (sc : Bool) (fs : List Frame) :
    ∀ c ∈ (renderLoop texturepart1.iteration sc fs).1,
      c.fn ∈ textureLoopFns ∧ ∀ v, Arg.val v ∈ c.args → v ∈ textureLoopVars :=
  renderLoop_forall _ _ (by simp [shouldCloseTest, textureLoopFns, textureLoopVars])
    texturepart1_iteration_fns sc fs

theorem texturepart1_fns (env : Env) : ∀ c ∈ (texturepart1.main env).trace, c.fn ∈ textureFns := by
  cases hw : env.windowOk
  · have ht : (texturepart1.main env).trace
        = glfwSetup env.apple ++ [createWindow] ++ windowFailed := by
      simp [texturepart1.main, hw]
    rw [ht]
    cases env.apple <;> decide
  · rw [texturepart1_trace env hw]
    intro c hc
    simp only [List.mem_append] at hc
    rcases hc with (((((((hc | hc) | hc) | hc) | hc) | hc) | hc) | hc)
    · revert c; cases env.apple <;> decide
    · revert c; decide
    · revert c; decide
    · revert c; decide
    · revert c; decide
    · revert c; decide
    · revert c
      cases env.image <;> simp [texturepart1.loadTexture, textureFns]
    · exact List.mem_append_right _ (texturepart1_loop_fns false env.frames c hc).1

/-- C2 (code as written): texturepart1 never calls `gladLoadGLLoader`, in any
run; its only `-1` exit is the NULL-window one; and in the run where the loader
initialization would report failure it issues graphics-API calls (the first one
being `glGenVertexArrays(1, &VAO)`) and returns 0, whereas HelloTriangle and
ShadersPart1 return -1 on that run. -/
theorem C2_texturepart1_skips_loader (env : Env) :
    (texturepart1.main env).trace.all (fun c => c.fn != .gladLoadGLLoader) = true ∧
    ((texturepart1.main env).exit = some (-1) ↔ env.windowOk = false) ∧
    loaderFailureEnv.gladOk = false ∧
    (texturepart1.main loaderFailureEnv).trace.find? (fun c => graphicsFns.contains c.fn)
      = some ⟨.glGenVertexArrays, [.int 1, .addr .VAO]⟩ ∧
    (texturepart1.main loaderFailureEnv).exit = some 0 ∧
    (HelloTriangle.main loaderFailureEnv).exit = some (-1) ∧
    (ShadersPart1.main loaderFailureEnv).exit = some (-1) := by
  refine ⟨?_, ?_, by decide, by decide, by decide, by decide, by decide⟩
  · rw [List.all_eq_true]
    intro c hc
    have := texturepart1_fns env c hc
    simp only [bne_iff_ne, ne_eq]
    intro h
    rw [h] at this
    revert this
    decide
  · cases hw : env.windowOk
    · simp [texturepart1.main, hw]
    · cases hl : (renderLoop texturepart1.iteration false env.frames).2 <;>
        simp [texturepart1.main, hw, hl]

theorem texturepart1_fn_ne (env : Env) (x : Fn) (hx : x ∉ textureFns) :
    (texturepart1.main env).trace.all (fun c => c.fn != x) = true := by
  rw [List.all_eq_true]
  intro c hc
  have := texturepart1_fns env c hc
  simp only [bne_iff_ne, ne_eq]
  intro h
  exact hx (h ▸ this)

/-- C7 (code as written): texturepart1 never calls a release function
(`glDeleteVertexArrays`, `glDeleteBuffers`, `glDeleteProgram`), in any run.  On the
normal exit path it creates the vertex array, both buffers, the texture and the
shader, returns 0 with the loop test as its last call and never calls
`glfwTerminate`, whereas HelloTriangle on the same run releases its four objects
after the last draw and then calls `glfwTerminate`. -/
theorem C7_texturepart1_releases_nothing (env : Env) :
    (texturepart1.main env).trace.all (fun c => !releaseFns.contains c.fn) = true ∧
    (texturepart1.main normalCloseEnv).exit = some 0 ∧
    List.Sublist
      [ ⟨.Shader, [.addr .ourShader,
          .str "C:\\Users\\maqui\\Documents\\OpenGL\\OpenGL\\src\\shader.vert",
          .str "C:\\Users\\maqui\\Documents\\OpenGL\\OpenGL\\src\\shader.frag"]⟩,
        ⟨.glGenVertexArrays, [.int 1, .addr .VAO]⟩,
        ⟨.glGenBuffers, [.int 1, .addr .VBO]⟩,
        ⟨.glGenBuffers, [.int 1, .addr .EBO]⟩,
        ⟨.glGenTextures, [.int 1, .addr .texture]⟩,
        drawElements ]
      (texturepart1.main normalCloseEnv).trace ∧
    (texturepart1.main normalCloseEnv).trace.all (fun c => c.fn != .glfwTerminate) = true ∧
    (texturepart1.main normalCloseEnv).trace.getLast? = some shouldCloseTest ∧
    List.Sublist
      [ drawElements,
        ⟨.glDeleteVertexArrays, [.int 1, .addr .VAO]⟩,
        ⟨.glDeleteBuffers, [.int 1, .addr .VBO]⟩,
        ⟨.glDeleteBuffers, [.int 1, .addr .EBO]⟩,
        ⟨.glDeleteProgram, [.val .shaderProgram]⟩,
        ⟨.glfwTerminate, []⟩ ]
      (HelloTriangle.main normalCloseEnv).trace := by
  refine ⟨?_, by decide, by decide, by decide, by decide, by decide⟩
  rw [List.all_eq_true]
  intro c hc
  have := texturepart1_fns env c hc
  simp only [Bool.not_eq_true', List.contains_eq_any_beq, List.any_eq_false, beq_iff_eq]
  intro x hx h
  have key : ∀ y ∈ releaseFns, y ∉ textureFns := by decide
  exact key x hx (h ▸ this)

/-- C8 (code as written): texturepart1 never calls `glfwGetKey` nor
`glfwSetWindowShouldClose`, in any run: its loop does not call `processInput`.
On the run where the escape key is down during the first frame and the close
request arrives in the second, texturepart1 draws twice, whereas HelloTriangle
and ShadersPart1 poll the key once, set the flag and draw once. -/
theorem C8_texturepart1_never_polls_key (env : Env) :
    (texturepart1.main env).trace.all (fun c => c.fn != .glfwGetKey) = true ∧
    (texturepart1.main env).trace.all (fun c => c.fn != .glfwSetWindowShouldClose) = true ∧
    (texturepart1.main escapeEnv).trace.count drawElements = 2 ∧
    (HelloTriangle.main escapeEnv).trace.count drawElements = 1 ∧
    (HelloTriangle.main escapeEnv).trace.count
        ⟨.glfwGetKey, [.val .window, .const .GLFW_KEY_ESCAPE]⟩ = 1 ∧
    (ShadersPart1.main escapeEnv).trace.count drawArrays = 1 ∧
    (ShadersPart1.main escapeEnv).trace.count
        ⟨.glfwGetKey, [.val .window, .const .GLFW_KEY_ESCAPE]⟩ = 1 :=
  ⟨texturepart1_fn_ne env _ (by decide), texturepart1_fn_ne env _ (by decide),
    by decide, by decide, by decide, by decide, by decide⟩

theorem renderLoop_cons (body : Frame → Bool → List Call × Bool) (f : Frame)
    (fs : List Frame) :
    (renderLoop body false (f :: fs)).1
      = [shouldCloseTest] ++ ((body f false).1 ++ (renderLoop body (body f false).2 fs).1) :=
  rfl

theorem boundAtDraws_append (b : Option Arg) (l₁ l₂ : List Call) :
    boundAtDraws b (l₁ ++ l₂) = boundAtDraws b l₁ ++ boundAtDraws (bindingAfter b l₁) l₂ := by
  induction l₁ generalizing b with
  | nil => rfl
  | cons c cs ih =>
    rw [List.cons_append]
    simp only [boundAtDraws]
    rw [ih, List.append_assoc]
    rfl

theorem boundAtDraws_nil_of_no_draw (b : Option Arg) (l : List Call)
    (h : ∀ c ∈ l, c.fn ≠ .glDrawElements) : boundAtDraws b l = [] := by
  induction l generalizing b with
  | nil => rfl
  | cons c cs ih =>
    have hc : c.fn ≠ .glDrawElements := h c (List.mem_cons_self _ _)
    simp only [boundAtDraws, hc, if_false, List.nil_append]
    exact ih _ (fun x hx => h x (List.mem_cons_of_mem _ hx))

theorem texturepart1_iteration_binding (b : Option Arg) (f : Frame) :
    boundAtDraws b (texturepart1.iteration f false).1 = [some (.val .texture)] ∧
    bindingAfter b (texturepart1.iteration f false).1 = some (.val .texture) := by
  rcases f with ⟨esc, t, loc, rs, cl⟩
  rcases rs with _ | ⟨w, h⟩ <;>
    simp [texturepart1.iteration, pollEvents, framebuffer_size_callback, boundAtDraws,
      bindingAfter, bindTexture]

theorem texturepart1_loop_binding (b : Option Arg) (sc : Bool) (fs : List Frame) :
    ∀ x ∈ boundAtDraws b (renderLoop texturepart1.iteration sc fs).1,
      x = some (.val .texture) := by
  induction fs generalizing b sc with
  | nil => cases sc <;> simp [renderLoop, boundAtDraws, shouldCloseTest]
  | cons f fs ih =>
    cases sc
    · intro x hx
      rw [renderLoop_cons, boundAtDraws_append, boundAtDraws_append,
        (texturepart1_iteration_binding _ f).1, List.mem_append, List.mem_append] at hx
      rcases hx with hx | hx | hx
      · simp [boundAtDraws, shouldCloseTest] at hx
      · exact List.mem_singleton.1 hx
      · exact ih _ _ x hx
    · simp [renderLoop, boundAtDraws, shouldCloseTest]

theorem texturepart1_loop_draws {fs : List Frame} (h : fs ≠ []) :
    drawElements ∈ (renderLoop texturepart1.iteration false fs).1 := by
  cases fs with
  | nil => exact absurd rfl h
  | cons f fs => simp [renderLoop, texturepart1.iteration, drawElements]

theorem texturepart1_split (env : Env) (hw : env.windowOk = true) :
    (texturepart1.main env).trace
      = beforeFree env ++ freeData :: (renderLoop texturepart1.iteration false env.frames).1 := by
  rw [texturepart1_trace env hw]
  simp [beforeFree, texturepart1.loadTexture, stbiLoad, freeData, uploadImage, generateMipmap,
    loadFailedMessage, List.append_assoc]

theorem beforeFree_fns (env : Env) :
    ∀ c ∈ beforeFree env, c.fn ∈ beforeFreeFns ++ [.glTexImage2D, .glGenerateMipmap] := by
  intro c hc
  simp only [beforeFree, List.mem_append] at hc
  rcases hc with (((((hc | hc) | hc) | hc) | hc) | hc) | hc
  · revert c; cases env.apple <;> decide
  · revert c; decide
  · revert c; decide
  · revert c; decide
  · revert c; decide
  · revert c; decide
  · revert c
    cases env.image <;>
      simp [beforeFreeFns, stbiLoad, uploadImage, generateMipmap, loadFailedMessage]

theorem beforeFree_fns_of_null (env : Env) (hi : env.image = none) :
    ∀ c ∈ beforeFree env, c.fn ∈ beforeFreeFns := by
  intro c hc
  simp only [beforeFree, hi, List.mem_append] at hc
  rcases hc with (((((hc | hc) | hc) | hc) | hc) | hc) | hc
  · revert c; cases env.apple <;> decide
  · revert c; decide
  · revert c; decide
  · revert c; decide
  · revert c; decide
  · revert c; decide
  · revert c; simp [beforeFreeFns, stbiLoad, loadFailedMessage]

theorem bindingAfter_beforeFree (env : Env) :
    bindingAfter none (beforeFree env) = some (.val .texture) := by
  cases ha : env.apple <;> cases hi : env.image <;>
    simp [beforeFree, ha, hi, glfwSetup, createWindow, makeCurrent,
      texturepart1.constructShader, texturepart1.setupBuffers, texturepart1.setupTexture,
      stbiLoad, uploadImage, generateMipmap, loadFailedMessage, bindingAfter, bindTexture]

/-- C9 (counterexample): in the run of texturepart1 whose decode returns NULL, the
texture object is the one bound to `GL_TEXTURE_2D` at the draw call. -/
theorem C9_counterexample :
    decodeFailureEnv.image = none ∧
    boundAtDraws none (texturepart1.main decodeFailureEnv).trace
      = [some (.val .texture)] := by
  decide

theorem renderLoop_head (body : Frame → Bool → List Call × Bool) (sc : Bool)
    (fs : List Frame) : shouldCloseTest ∈ (renderLoop body sc fs).1 := by
  cases sc <;> cases fs <;> simp [renderLoop]

theorem boundAtDraws_ne_nil (b : Option Arg) (l : List Call) (c : Call) (hc : c ∈ l)
    (hd : c.fn = .glDrawElements) : boundAtDraws b l ≠ [] := by
  induction l generalizing b with
  | nil => exact absurd hc (List.not_mem_nil _)
  | cons x xs ih =>
    rcases List.mem_cons.1 hc with rfl | hx
    · simp [boundAtDraws, hd]
    · intro h
      simp only [boundAtDraws, List.append_eq_nil] at h
      exact ih _ hx h.2

/-- C9 (amended): in texturepart1, in every run whose window is created and whose
image decoder returns NULL: `Failed to load texture` is printed after the decode,
no `glTexImage2D` and no `glGenerateMipmap` call is issued, the program does not
return -1 but goes on to the buffer release and the loop test, and at every
per-frame draw call the texture object `texture` (bound again by `glBindTexture`
in each iteration) is the one bound to `GL_TEXTURE_2D`; with at least one frame
supplied a draw call is issued; and `glBindTexture(GL_TEXTURE_2D, texture)` is
called once in the setup and once in every iteration started, which makes as
many calls as there are loop tests. -/
theorem C9_decode_failure_still_binds (env : Env)
    (hw : env.windowOk = true) (hi : env.image = none) :
    List.Sublist [stbiLoad, loadFailedMessage, freeData, shouldCloseTest]
      (texturepart1.main env).trace ∧
    (texturepart1.main env).trace.all
      (fun c => c.fn != .glTexImage2D && c.fn != .glGenerateMipmap) = true ∧
    (texturepart1.main env).exit ≠ some (-1) ∧
    (∀ b ∈ boundAtDraws none (texturepart1.main env).trace, b = some (.val .texture)) ∧
    (env.frames ≠ [] → drawElements ∈ (texturepart1.main env).trace ∧
      boundAtDraws none (texturepart1.main env).trace ≠ []) ∧
    (beforeFree env).count bindTextureObject = 1 ∧
    (texturepart1.main env).trace.count bindTextureObject
      = (texturepart1.main env).trace.count shouldCloseTest := by
  have hsplit := texturepart1_split env hw
  have hfns := beforeFree_fns_of_null env hi
  refine ⟨?_, ?_, ?_, ?_, ?_, ?_, ?_⟩
  · rw [hsplit]
    have h1 : List.Sublist [stbiLoad, loadFailedMessage] (beforeFree env) := by
      simp only [beforeFree, hi]
      exact List.sublist_append_of_sublist_right (List.Sublist.refl _)
    have h2 : List.Sublist [freeData, shouldCloseTest]
        (freeData :: (renderLoop texturepart1.iteration false env.frames).1) :=
      List.Sublist.cons₂ _ (List.singleton_sublist.2 (renderLoop_head _ _ _))
    exact List.Sublist.append h1 h2
  · rw [List.all_eq_true, hsplit]
    intro c hc
    have hfn : c.fn ∈ beforeFreeFns ++ [.stbi_image_free] ++ textureLoopFns := by
      rcases List.mem_append.1 hc with hc | hc
      · exact List.mem_append_left _ (List.mem_append_left _ (hfns c hc))
      · rcases List.mem_cons.1 hc with rfl | hc
        · decide
        · exact List.mem_append_right _ (texturepart1_loop_fns false env.frames c hc).1
    have key : ∀ x ∈ beforeFreeFns ++ [.stbi_image_free] ++ textureLoopFns,
        (x != Fn.glTexImage2D && x != Fn.glGenerateMipmap) = true := by decide
    exact key _ hfn
  · cases hl : (renderLoop texturepart1.iteration false env.frames).2 <;>
      simp [texturepart1.main, hw, hl]
  · intro b hb
    rw [hsplit, boundAtDraws_append, boundAtDraws_nil_of_no_draw none (beforeFree env)
      (fun c hc h => by
        have := hfns c hc
        rw [h] at this
        revert this
        decide), List.nil_append] at hb
    simp only [boundAtDraws, freeData, reduceCtorEq, if_false, List.nil_append] at hb
    exact texturepart1_loop_binding _ _ _ b hb
  · intro hfs
    have hd : drawElements ∈ (texturepart1.main env).trace := by
      rw [hsplit]
      exact List.mem_append_right _ (List.mem_cons_of_mem _ (texturepart1_loop_draws hfs))
    exact ⟨hd, boundAtDraws_ne_nil _ _ _ hd rfl⟩
  · simp only [beforeFree, hi]
    cases env.apple <;> decide
  · have hb : (beforeFree env).count bindTextureObject = 1 := by
      simp only [beforeFree, hi]
      cases env.apple <;> decide
    have ht : (beforeFree env).count shouldCloseTest = 0 := by
      simp only [beforeFree, hi]
      cases env.apple <;> decide
    have hloop := renderLoop_count texturepart1.iteration bindTextureObject (by decide)
      (fun f => by
        rcases f with ⟨esc, t, loc, rs, cl⟩
        rcases rs with _ | ⟨w, h⟩ <;>
          simp [texturepart1.iteration, pollEvents, framebuffer_size_callback,
            List.count_cons, bindTextureObject])
      (fun f => by
        rcases f with ⟨esc, t, loc, rs, cl⟩
        rcases rs with _ | ⟨w, h⟩ <;>
          simp [texturepart1.iteration, pollEvents, framebuffer_size_callback,
            List.count_cons, shouldCloseTest])
      false env.frames
    have hf1 : ([freeData] : List Call).count bindTextureObject = 0 := by decide
    have hf2 : ([freeData] : List Call).count shouldCloseTest = 0 := by decide
    rw [hsplit, ← List.singleton_append, List.count_append, List.count_append,
      List.count_append, List.count_append, hb, ht, hf1, hf2]
    omega

/-- Witness of `C9_decode_failure_still_binds` on the run whose decode returns
NULL. -/
theorem C9_decode_failure_witness :
    decodeFailureEnv.windowOk = true ∧ decodeFailureEnv.image = none ∧
    List.Sublist [stbiLoad, loadFailedMessage, freeData, shouldCloseTest]
      (texturepart1.main decodeFailureEnv).trace ∧
    (∀ b ∈ boundAtDraws none (texturepart1.main decodeFailureEnv).trace,
      b = some (.val .texture)) :=
  ⟨by decide, by decide,
    (C9_decode_failure_still_binds decodeFailureEnv (by decide) (by decide)).1,
    (C9_decode_failure_still_binds decodeFailureEnv (by decide) (by decide)).2.2.2.1⟩

theorem isFree_fn : ∀ c, isFree c = true → c.fn ∈ [Fn.stbi_image_free] := by
  intro c h
  simp only [isFree, beq_iff_eq] at h
  simp [h]

/-- C10: in texturepart1, in every run that reaches the decode (NULL result or
not), `stbi_image_free` is called exactly once, on `data`; the decode and, when
the result is non-NULL, the `glTexImage2D` and `glGenerateMipmap` calls come before
it, and no call after it is passed `data`. -/
theorem C10_buffer_freed_once (env : Env) (hw : env.windowOk = true) :
    ((texturepart1.main env).trace.filter isFree).length = 1 ∧
    ∃ pre post, (texturepart1.main env).trace = pre ++ freeData :: post ∧
      stbiLoad ∈ pre ∧
      (∀ c ∈ post, Arg.val .data ∉ c.args) ∧
      (∀ img, env.image = some img →
        List.Sublist [stbiLoad, uploadImage img, generateMipmap] pre) := by
  have hsplit := texturepart1_split env hw
  have h1 : (beforeFree env).filter isFree = [] :=
    filter_nil_of_fn (beforeFree_fns env) _ isFree_fn (by decide)
  have h2 : (renderLoop texturepart1.iteration false env.frames).1.filter isFree = [] :=
    filter_nil_of_fn (fun c hc => (texturepart1_loop_fns false env.frames c hc).1) _
      isFree_fn (by decide)
  refine ⟨?_, beforeFree env, _, hsplit, ?_, ?_, ?_⟩
  · rw [hsplit, List.filter_append, h1, List.filter_cons, h2]
    rfl
  · simp [beforeFree]
  · intro c hc hm
    have := (texturepart1_loop_fns false env.frames c hc).2 _ hm
    revert this
    decide
  · intro img hi
    simp only [beforeFree, hi]
    exact List.sublist_append_of_sublist_right (List.Sublist.refl _)

/-- Witness of `C10_buffer_freed_once` on a run whose decode succeeds. -/
theorem C10_buffer_freed_witness :
    normalCloseEnv.windowOk = true ∧
    ((texturepart1.main normalCloseEnv).trace.filter isFree).length = 1 :=
  ⟨by decide, (C10_buffer_freed_once normalCloseEnv (by decide)).1⟩

/-! ### The sibling programs on the points where texturepart1 differs -/

/-- In HelloTriangle and ShadersPart1, a run that leaves the loop ends with the
teardown block: everything before it calls no release function and no
`glfwTerminate`, so each object is released once, after the last draw and before
the context is terminated. -/
theorem siblings_release_at_teardown (env : Env)
    (hw : env.windowOk = true) (hg : env.gladOk = true)
    (hx : env.frames.any (fun f => f.escPressed || f.closeRequested) = true) :
    (∃ pre, (HelloTriangle.main env).trace = pre ++ HelloTriangle.teardown ∧
        ∀ c ∈ pre, c.fn ∉ releaseFns ∧ c.fn ≠ .glfwTerminate) ∧
    (∃ pre, (ShadersPart1.main env).trace = pre ++ ShadersPart1.teardown ∧
        ∀ c ∈ pre, c.fn ∉ releaseFns ∧ c.fn ≠ .glfwTerminate) := by
  have hH := renderLoop_left HelloTriangle.iteration _ HelloTriangle_iteration_flag env.frames
  have hS := renderLoop_left ShadersPart1.iteration _ ShadersPart1_iteration_flag env.frames
  rw [hx] at hH hS
  have key : ∀ x ∈ preludeFns ++ buildFns ++ loopFns ++ [.glGenVertexArrays, .glGenBuffers,
      .glBindBuffer, .glBufferData, .glVertexAttribPointer, .glEnableVertexAttribArray],
      x ∉ releaseFns ∧ x ≠ Fn.glfwTerminate := by decide
  have hsbH : ∀ d ∈ HelloTriangle.setupBuffers, d.fn ∈ preludeFns ++ buildFns ++ loopFns
      ++ [.glGenVertexArrays, .glGenBuffers, .glBindBuffer, .glBufferData,
          .glVertexAttribPointer, .glEnableVertexAttribArray] := by decide
  have hsbS : ∀ d ∈ ShadersPart1.setupBuffers, d.fn ∈ preludeFns ++ buildFns ++ loopFns
      ++ [.glGenVertexArrays, .glGenBuffers, .glBindBuffer, .glBufferData,
          .glVertexAttribPointer, .glEnableVertexAttribArray] := by decide
  constructor
  · refine ⟨_, by rw [HelloTriangle_trace env hw hg, hH]; rfl, ?_⟩
    intro c hc
    apply key
    rcases List.mem_append.1 hc with hc | hc
    · rcases List.mem_append.1 hc with hc | hc
      · rcases List.mem_append.1 hc with hc | hc
        · exact List.mem_append_left _ (List.mem_append_left _ (List.mem_append_left _
            (prelude_fns env.apple c hc)))
        · exact List.mem_append_left _ (List.mem_append_left _ (List.mem_append_right _
            (build_fns env c hc)))
      · exact hsbH c hc
    · exact List.mem_append_left _ (List.mem_append_right _
        (HelloTriangle_loop_fns false env.frames c hc).1)
  · refine ⟨_, by rw [ShadersPart1_trace env hw hg, hS]; rfl, ?_⟩
    intro c hc
    apply key
    rcases List.mem_append.1 hc with hc | hc
    · rcases List.mem_append.1 hc with hc | hc
      · rcases List.mem_append.1 hc with hc | hc
        · exact List.mem_append_left _ (List.mem_append_left _ (List.mem_append_left _
            (prelude_fns env.apple c hc)))
        · exact List.mem_append_left _ (List.mem_append_left _ (List.mem_append_right _
            (build_fns env c hc)))
      · exact hsbS c hc
    · exact List.mem_append_left _ (List.mem_append_right _
        (ShadersPart1_loop_fns false env.frames c hc).1)

theorem siblings_iteration_getKey (f : Frame) :
    (HelloTriangle.iteration f false).1.count getKey = 1 ∧
    (ShadersPart1.iteration f false).1.count getKey = 1 := by
  rcases f with ⟨esc, t, loc, rs, cl⟩
  cases esc <;> rcases rs with _ | ⟨w, h⟩ <;>
    simp [HelloTriangle.iteration, ShadersPart1.iteration, processInput, pollEvents,
      framebuffer_size_callback, List.count_cons, getKey]

/-- In HelloTriangle and ShadersPart1, the escape key is polled once in every
iteration started (one less than the number of loop tests); `processInput` sets
the flag when the key is down and leaves it unchanged otherwise; and an iteration
in which the key is down is followed by the final loop test only. -/
theorem siblings_poll_once (env : Env) (hw : env.windowOk = true) (hg : env.gladOk = true) :
    ((HelloTriangle.main env).trace.count getKey + 1
        = (HelloTriangle.main env).trace.count shouldCloseTest) ∧
    ((ShadersPart1.main env).trace.count getKey + 1
        = (ShadersPart1.main env).trace.count shouldCloseTest) ∧
    (∀ sc, (processInput true sc).2 = true ∧ (processInput false sc).2 = sc) ∧
    (∀ f fs, f.escPressed = true →
      (renderLoop HelloTriangle.iteration false (f :: fs)).1
          = shouldCloseTest :: ((HelloTriangle.iteration f false).1 ++ [shouldCloseTest]) ∧
      (renderLoop ShadersPart1.iteration false (f :: fs)).1
          = shouldCloseTest :: ((ShadersPart1.iteration f false).1 ++ [shouldCloseTest])) := by
  refine ⟨?_, ?_, fun sc => ⟨rfl, rfl⟩, ?_⟩
  · rw [HelloTriangle_count env hw hg getKey (by decide) (by decide) (by decide),
      HelloTriangle_count env hw hg shouldCloseTest (by decide) (by decide) (by decide)]
    exact renderLoop_count _ _ (by decide) (fun f => (siblings_iteration_getKey f).1)
      (fun f => (HelloTriangle_iteration_counts f).2.2) _ _
  · rw [ShadersPart1_count env hw hg getKey (by decide) (by decide) (by decide),
      ShadersPart1_count env hw hg shouldCloseTest (by decide) (by decide) (by decide)]
    exact renderLoop_count _ _ (by decide) (fun f => (siblings_iteration_getKey f).2)
      (fun f => (ShadersPart1_iteration_counts f).2.2) _ _
  · intro f fs hf
    have h1 : (HelloTriangle.iteration f false).2 = true := by
      rw [HelloTriangle_iteration_flag, hf]; rfl
    have h2 : (ShadersPart1.iteration f false).2 = true := by
      rw [ShadersPart1_iteration_flag, hf]; rfl
    simp only [renderLoop, h1, h2, renderLoop_closed, and_self]

/-! ### The per-frame uniform update of ShadersPart1 -/

theorem renderLoop_filter (body : Frame → Bool → List Call × Bool) (p : Frame → Bool)
    (h : ∀ f, (body f false).2 = p f) (q : Call → Bool) (hq : q shouldCloseTest = false)
    (fs : List Frame) :
    (renderLoop body false fs).1.filter q
      = (executed p fs).flatMap (fun f => (body f false).1.filter q) := by
  induction fs with
  | nil => simp [renderLoop, executed, List.filter_cons, hq]
  | cons f fs ih =>
    rw [renderLoop_cons, List.filter_append, List.filter_append, h]
    cases hp : p f
    · simp [executed, hp, List.filter_cons, hq, ih]
    · simp [executed, hp, List.filter_cons, hq, renderLoop_closed]

theorem ShadersPart1_iteration_uniform (f : Frame) (sc : Bool) :
    (ShadersPart1.iteration f sc).1.filter isUniformStep
      = [useProgram, lookupOurColor, writeOurColor f, drawArrays] := by
  rcases f with ⟨esc, t, loc, rs, cl⟩
  cases esc <;> rcases rs with _ | ⟨w, h⟩ <;>
    simp [ShadersPart1.iteration, processInput, pollEvents, framebuffer_size_callback,
      List.filter_cons, isUniformStep, useProgram, lookupOurColor, writeOurColor, drawArrays]

theorem isUniformStep_fn : ∀ c, isUniformStep c = true →
    c.fn ∈ [Fn.glUseProgram, .glGetUniformLocation, .glUniform4f, .glDrawArrays] := by
  intro c h
  simp only [isUniformStep, Bool.or_eq_true, beq_iff_eq] at h
  rcases h with ((h | h) | h) | h <;> simp [h]

/-- C11: in ShadersPart1, in every run that reaches the render loop, the
activations, uniform lookups, uniform writes and draws of the whole run are, for
each iteration run and in this order, `glUseProgram(shaderProgram)`, one lookup
`glGetUniformLocation(shaderProgram, "ourColor")`, one `glUniform4f` whose location
is the result of that same iteration's lookup and whose value is (0, green, 0, 1)
with green computed from that iteration's clock reading, and `glDrawArrays`: no
write uses another iteration's location and none precedes the activation of its
iteration. -/
theorem C11_uniform_update_per_iteration (env : Env)
    (hw : env.windowOk = true) (hg : env.gladOk = true) :
    (ShadersPart1.main env).trace.filter isUniformStep
      = (executed closes env.frames).flatMap
          (fun f => [useProgram, lookupOurColor, writeOurColor f, drawArrays]) ∧
    (∀ f sc, (ShadersPart1.iteration f sc).1.filter isUniformStep
      = [useProgram, lookupOurColor, writeOurColor f, drawArrays]) := by
  refine ⟨?_, ShadersPart1_iteration_uniform⟩
  have h1 := filter_nil_of_fn (prelude_fns env.apple) isUniformStep isUniformStep_fn (by decide)
  have h2 := filter_nil_of_fn (build_fns env) isUniformStep isUniformStep_fn (by decide)
  have h3 : ShadersPart1.setupBuffers.filter isUniformStep = [] := by decide
  have h4 : (if (renderLoop ShadersPart1.iteration false env.frames).2
      then ShadersPart1.teardown else []).filter isUniformStep = [] := by
    cases (renderLoop ShadersPart1.iteration false env.frames).2 <;> decide
  have h5 := renderLoop_filter ShadersPart1.iteration closes
    (fun f => by rw [ShadersPart1_iteration_flag]; rfl) isUniformStep (by decide) env.frames
  rw [ShadersPart1_trace env hw hg]
  simp only [List.filter_append, h1, h2, h3, h4, h5, List.nil_append, List.append_nil,
    ShadersPart1_iteration_uniform]

/-- Witness of `C11_uniform_update_per_iteration` on a run of two iterations
whose lookups return 0 and 5. -/
theorem C11_uniform_update_witness :
    twoFramesEnv.windowOk = true ∧ twoFramesEnv.gladOk = true ∧
    (ShadersPart1.main twoFramesEnv).trace.filter isUniformStep
      = [ useProgram, lookupOurColor,
          ⟨.glUniform4f, [.int 0, .flt 0 1, .green 1, .flt 0 1, .flt 1 1]⟩, drawArrays,
          useProgram, lookupOurColor,
          ⟨.glUniform4f, [.int 5, .flt 0 1, .green 2, .flt 0 1, .flt 1 1]⟩, drawArrays ] :=
  ⟨by decide, by decide,
    (C11_uniform_update_per_iteration twoFramesEnv (by decide) (by decide)).1⟩

theorem getUniformLocation_absent (p : ProgramState) (name : String)
    (h : ∀ u ∈ p.uniforms, u.name ≠ name) : getUniformLocation p name = -1 := by
  have : p.uniforms.find? (fun u => u.name == name) = none := by
    rw [List.find?_eq_none]
    intro u hu
    simpa using h u hu
  simp [getUniformLocation, this]

theorem driverStep_of_fn (p : ProgramState) (c : Call) (h : c.fn ≠ .glUniform4f) :
    driverStep p c = p := by
  rcases c with ⟨fn, args⟩
  cases fn <;> first | rfl | exact absurd rfl h

theorem foldl_driverStep_of_fn (p : ProgramState) (l : List Call)
    (h : ∀ c ∈ l, c.fn ≠ .glUniform4f) : l.foldl driverStep p = p := by
  induction l with
  | nil => rfl
  | cons c cs ih =>
    rw [List.foldl_cons, driverStep_of_fn p c (h c (List.mem_cons_self _ _))]
    exact ih (fun x hx => h x (List.mem_cons_of_mem _ hx))

theorem ShadersPart1_iteration_absent (p : ProgramState) (f : Frame) (sc : Bool)
    (hloc : f.uniformLocation = -1) :
    (ShadersPart1.iteration f sc).1.foldl driverStep p = p := by
  rcases f with ⟨esc, t, loc, rs, cl⟩
  simp only at hloc
  subst hloc
  cases esc <;> rcases rs with _ | ⟨w, h⟩ <;>
    simp [ShadersPart1.iteration, processInput, pollEvents, framebuffer_size_callback,
      driverStep, uniform4f]

theorem ShadersPart1_loop_absent (p : ProgramState) (sc : Bool) (fs : List Frame)
    (hloc : ∀ f ∈ fs, f.uniformLocation = -1) :
    (renderLoop ShadersPart1.iteration sc fs).1.foldl driverStep p = p := by
  induction fs generalizing sc with
  | nil => cases sc <;> rfl
  | cons f fs ih =>
    cases sc
    · rw [renderLoop_cons, List.foldl_append, List.foldl_append,
        ShadersPart1_iteration_absent _ f false (hloc f (List.mem_cons_self _ _))]
      exact ih _ (fun x hx => hloc x (List.mem_cons_of_mem _ hx))
    · rw [renderLoop_closed]; rfl

theorem ShadersPart1_iteration_rest (f : Frame) (sc : Bool) (loc : Int) :
    (ShadersPart1.iteration { f with uniformLocation := loc } sc).1.filter
        (fun c => c.fn != .glUniform4f)
      = (ShadersPart1.iteration f sc).1.filter (fun c => c.fn != .glUniform4f) ∧
    (ShadersPart1.iteration { f with uniformLocation := loc } sc).2
      = (ShadersPart1.iteration f sc).2 ∧
    List.Sublist [lookupOurColor, writeOurColor f, drawArrays, swapBuffers]
      (ShadersPart1.iteration f sc).1 := by
  rcases f with ⟨esc, t, l, rs, cl⟩
  refine ⟨?_, rfl, ?_⟩
  · cases esc <;> rcases rs with _ | ⟨w, h⟩ <;>
      simp [ShadersPart1.iteration, processInput, pollEvents, framebuffer_size_callback,
        List.filter_cons]
  · have h8 : List.Sublist
        [lookupOurColor, writeOurColor ⟨esc, t, l, rs, cl⟩, drawArrays, swapBuffers]
        [ (⟨.glClearColor, [.flt 2 10, .flt 3 10, .flt 3 10, .flt 1 1]⟩ : Call),
          ⟨.glClear, [.const .GL_COLOR_BUFFER_BIT]⟩,
          ⟨.glUseProgram, [.val .shaderProgram]⟩,
          ⟨.glfwGetTime, []⟩,
          ⟨.glGetUniformLocation, [.val .shaderProgram, .str "ourColor"]⟩,
          ⟨.glUniform4f, [.int l, .flt 0 1, .green t, .flt 0 1, .flt 1 1]⟩,
          ⟨.glDrawArrays, [.const .GL_TRIANGLES, .int 0, .int 3]⟩,
          ⟨.glfwSwapBuffers, [.val .window]⟩ ] :=
      List.Sublist.cons _ (List.Sublist.cons _ (List.Sublist.cons _ (List.Sublist.cons _
        (List.Sublist.refl _))))
    simp only [ShadersPart1.iteration]
    exact List.sublist_append_of_sublist_left (List.sublist_append_of_sublist_right h8)

/-- C12: over the driver model in which the lookup of a name absent from the
linked program returns -1 and a write to location -1 leaves the uniform table
unchanged, for every linked program with no uniform named `ourColor` a run of
ShadersPart1 whose lookups are answered by that driver leaves every uniform's
value and the error flag as they were, prints nothing in its loop, and every
iteration still issues the lookup, the write, the draw call and the buffer swap
in this order, the other calls of the iteration and its should-close flag being
the same whatever location the lookup returned. -/
theorem C12_absent_uniform_is_noop (p : ProgramState) (env : Env)
    (hw : env.windowOk = true) (hg : env.gladOk = true)
    (habs : ∀ u ∈ p.uniforms, u.name ≠ "ourColor")
    (hdrv : ∀ f ∈ env.frames, f.uniformLocation = getUniformLocation p "ourColor") :
    (ShadersPart1.main env).trace.foldl driverStep p = p ∧
    (∀ c ∈ (renderLoop ShadersPart1.iteration false env.frames).1, c.fn ≠ .cout) ∧
    (∀ f ∈ env.frames, ∀ sc,
      (ShadersPart1.iteration f sc).1.foldl driverStep p = p ∧
      List.Sublist [lookupOurColor, writeOurColor f, drawArrays, swapBuffers]
        (ShadersPart1.iteration f sc).1 ∧
      ∀ loc, (ShadersPart1.iteration { f with uniformLocation := loc } sc).1.filter
            (fun c => c.fn != .glUniform4f)
          = (ShadersPart1.iteration f sc).1.filter (fun c => c.fn != .glUniform4f) ∧
        (ShadersPart1.iteration { f with uniformLocation := loc } sc).2
          = (ShadersPart1.iteration f sc).2) := by
  have hloc : ∀ f ∈ env.frames, f.uniformLocation = -1 := fun f hf =>
    (hdrv f hf).trans (getUniformLocation_absent p _ habs)
  have hkey : ∀ x ∈ preludeFns ++ buildFns ++ [.glGenVertexArrays, .glGenBuffers,
      .glBindVertexArray, .glBindBuffer, .glBufferData, .glVertexAttribPointer,
      .glEnableVertexAttribArray, .glDeleteVertexArrays, .glDeleteBuffers, .glDeleteProgram,
      .glfwTerminate], x ≠ Fn.glUniform4f := by decide
  refine ⟨?_, ?_, ?_⟩
  · rw [ShadersPart1_trace env hw hg, List.foldl_append, List.foldl_append,
      List.foldl_append, List.foldl_append]
    rw [foldl_driverStep_of_fn p _ (fun c hc => hkey _
        (List.mem_append_left _ (List.mem_append_left _ (prelude_fns env.apple c hc)))),
      foldl_driverStep_of_fn p _ (fun c hc => hkey _
        (List.mem_append_left _ (List.mem_append_right _ (build_fns env c hc)))),
      foldl_driverStep_of_fn p ShadersPart1.setupBuffers (by decide),
      ShadersPart1_loop_absent p false env.frames hloc]
    cases (renderLoop ShadersPart1.iteration false env.frames).2
    · rfl
    · exact foldl_driverStep_of_fn p ShadersPart1.teardown (by decide)
  · intro c hc h
    have := (ShadersPart1_loop_fns false env.frames c hc).1
    rw [h] at this
    revert this
    decide
  · intro f hf sc
    exact ⟨ShadersPart1_iteration_absent p f sc (hloc f hf),
      (ShadersPart1_iteration_rest f sc 0).2.2,
      fun loc => ⟨(ShadersPart1_iteration_rest f sc loc).1,
        (ShadersPart1_iteration_rest f sc loc).2.1⟩⟩

/-- Witness of `C12_absent_uniform_is_noop` on a linked program whose only
uniform is `tint`, over two iterations. -/
theorem C12_absent_uniform_witness :
    absentUniformEnv.windowOk = true ∧ absentUniformEnv.gladOk = true ∧
    (∀ u ∈ tintOnlyProgram.uniforms, u.name ≠ "ourColor") ∧
    (∀ f ∈ absentUniformEnv.frames,
      f.uniformLocation = getUniformLocation tintOnlyProgram "ourColor") ∧
    (ShadersPart1.main absentUniformEnv).trace.foldl driverStep tintOnlyProgram
      = tintOnlyProgram :=
  ⟨by decide, by decide, by decide, by decide,
    (C12_absent_uniform_is_noop tintOnlyProgram absentUniformEnv (by decide) (by decide)
      (by decide) (by decide)).1⟩

/-- In the driver model a write to the location of a present uniform does change
the table: the model is not one in which every write is ignored. -/
theorem uniform4f_present_changes :
    getUniformLocation ourColorProgram "ourColor" = 0 ∧
    (uniform4f ourColorProgram 0 [.flt 0 1, .green 1, .flt 0 1, .flt 1 1]).uniforms
      = [ { name := "ourColor", location := 0,
            value := [.flt 0 1, .green 1, .flt 0 1, .flt 1 1] } ] ∧
    (uniform4f ourColorProgram 7 [.flt 0 1, .green 1, .flt 0 1, .flt 1 1]).error = true := by
  decide

/-! ### Independence from the compile and link statuses -/

theorem build_withoutDiagnostics (env : Env) :
    withoutDiagnostics (buildShaderProgram env)
      = compileVertex ++ compileFragment ++ linkStages ++ deleteStages := by
  have h1 : withoutDiagnostics compileVertex = compileVertex := by decide
  have h2 : withoutDiagnostics compileFragment = compileFragment := by decide
  have h3 : withoutDiagnostics linkStages = linkStages := by decide
  have h4 : withoutDiagnostics deleteStages = deleteStages := by decide
  have v : withoutDiagnostics (vertexDiagnostic env) = [] := by
    cases hv : env.vertexOk <;>
      simp [withoutDiagnostics, vertexDiagnostic, hv, List.filter_cons, isShaderDiagnostic,
        isDiagnostic]
  have f : withoutDiagnostics (fragmentDiagnostic env) = [] := by
    cases hf : env.fragmentOk <;>
      simp [withoutDiagnostics, fragmentDiagnostic, hf, List.filter_cons, isShaderDiagnostic,
        isDiagnostic]
  have l : withoutDiagnostics (linkDiagnostic env) = [] := by
    cases hl : env.linkOk <;>
      simp [withoutDiagnostics, linkDiagnostic, hl, List.filter_cons, isShaderDiagnostic,
        isDiagnostic]
  unfold withoutDiagnostics at *
  simp only [buildShaderProgram, List.filter_append, h1, h2, h3, h4, v, f, l, List.append_nil]

theorem withoutDiagnostics_append (a b : List Call) :
    withoutDiagnostics (a ++ b) = withoutDiagnostics a ++ withoutDiagnostics b :=
  List.filter_append _ _

theorem HelloTriangle_as_allSucceed (env : Env) :
    withoutDiagnostics (HelloTriangle.main env).trace
      = withoutDiagnostics (HelloTriangle.main (allSucceed env)).trace ∧
    (HelloTriangle.main env).exit = (HelloTriangle.main (allSucceed env)).exit := by
  cases hw : env.windowOk
  · simp [HelloTriangle.main, allSucceed, hw]
  · cases hg : env.gladOk
    · simp [HelloTriangle.main, allSucceed, hw, hg]
    · refine ⟨?_, by simp [HelloTriangle.main, allSucceed, hw, hg]⟩
      rw [HelloTriangle_trace env hw hg, HelloTriangle_trace (allSucceed env) hw hg]
      simp only [withoutDiagnostics_append, build_withoutDiagnostics]
      rfl

theorem ShadersPart1_as_allSucceed (env : Env) :
    withoutDiagnostics (ShadersPart1.main env).trace
      = withoutDiagnostics (ShadersPart1.main (allSucceed env)).trace ∧
    (ShadersPart1.main env).exit = (ShadersPart1.main (allSucceed env)).exit := by
  cases hw : env.windowOk
  · simp [ShadersPart1.main, allSucceed, hw]
  · cases hg : env.gladOk
    · simp [ShadersPart1.main, allSucceed, hw, hg]
    · refine ⟨?_, by simp [ShadersPart1.main, allSucceed, hw, hg]⟩
      rw [ShadersPart1_trace env hw hg, ShadersPart1_trace (allSucceed env) hw hg]
      simp only [withoutDiagnostics_append, build_withoutDiagnostics]
      rfl

/-- C13: in HelloTriangle and ShadersPart1, two runs with the same window, loader
and per-frame answers (whatever their compile and link statuses and info logs)
issue the same sequence of calls once the info-log retrievals and diagnostic
prints are left out, and return the same exit code; and a run that reaches the
loop with at least one frame activates the program and draws after the link
status check, whatever the statuses. -/
theorem C13_statuses_do_not_change_control_flow (env₁ env₂ : Env)
    (ha : env₁.apple = env₂.apple) (hw : env₁.windowOk = env₂.windowOk)
    (hg : env₁.gladOk = env₂.gladOk) (hf : env₁.frames = env₂.frames) :
    (withoutDiagnostics (HelloTriangle.main env₁).trace
        = withoutDiagnostics (HelloTriangle.main env₂).trace ∧
      (HelloTriangle.main env₁).exit = (HelloTriangle.main env₂).exit) ∧
    (withoutDiagnostics (ShadersPart1.main env₁).trace
        = withoutDiagnostics (ShadersPart1.main env₂).trace ∧
      (ShadersPart1.main env₁).exit = (ShadersPart1.main env₂).exit) ∧
    (env₁.windowOk = true → env₁.gladOk = true → env₁.frames ≠ [] →
      List.Sublist [linkStatusCheck, useProgram, drawElements]
        (withoutDiagnostics (HelloTriangle.main env₂).trace) ∧
      List.Sublist [linkStatusCheck, useProgram, drawArrays]
        (withoutDiagnostics (ShadersPart1.main env₂).trace)) := by
  have hn : allSucceed env₁ = allSucceed env₂ := by
    simp [allSucceed, ha, hw, hg, hf]
  have hH₁ := HelloTriangle_as_allSucceed env₁
  have hH₂ := HelloTriangle_as_allSucceed env₂
  have hS₁ := ShadersPart1_as_allSucceed env₁
  have hS₂ := ShadersPart1_as_allSucceed env₂
  rw [hn] at hH₁ hS₁
  refine ⟨⟨hH₁.1.trans hH₂.1.symm, hH₁.2.trans hH₂.2.symm⟩,
    ⟨hS₁.1.trans hS₂.1.symm, hS₁.2.trans hS₂.2.symm⟩, ?_⟩
  intro hw₁ hg₁ hfs
  have hw₂ : env₂.windowOk = true := hw ▸ hw₁
  have hg₂ : env₂.gladOk = true := hg ▸ hg₁
  have hfs₂ : env₂.frames ≠ [] := hf ▸ hfs
  have hlink : List.Sublist [linkStatusCheck] (buildShaderProgram env₂) :=
    List.Sublist.trans (by decide) (build_checks_attach_link env₂)
  have keep : ∀ {l t : List Call}, List.Sublist l t → withoutDiagnostics l = l →
      List.Sublist l (withoutDiagnostics t) := by
    intro l t h hl
    rw [← hl]
    exact List.Sublist.filter _ h
  constructor
  · refine keep ?_ (by decide)
    rw [HelloTriangle_trace env₂ hw₂ hg₂]
    exact List.sublist_append_of_sublist_left
      (List.Sublist.append (List.sublist_append_of_sublist_left
        (List.sublist_append_of_sublist_right hlink)) (HelloTriangle_loop_draws hfs₂))
  · refine keep ?_ (by decide)
    rw [ShadersPart1_trace env₂ hw₂ hg₂]
    exact List.sublist_append_of_sublist_left
      (List.Sublist.append (List.sublist_append_of_sublist_left
        (List.sublist_append_of_sublist_right hlink)) (ShadersPart1_loop_draws hfs₂))

/-- Witness of `C13_statuses_do_not_change_control_flow` on the run whose vertex
stage fails to compile and the run whose link fails. -/
theorem C13_statuses_witness :
    vertexFailureEnv.apple = linkFailureEnv.apple ∧
    vertexFailureEnv.windowOk = linkFailureEnv.windowOk ∧
    vertexFailureEnv.gladOk = linkFailureEnv.gladOk ∧
    vertexFailureEnv.frames = linkFailureEnv.frames ∧
    withoutDiagnostics (HelloTriangle.main vertexFailureEnv).trace
      = withoutDiagnostics (HelloTriangle.main linkFailureEnv).trace ∧
    (ShadersPart1.main vertexFailureEnv).exit = (ShadersPart1.main linkFailureEnv).exit :=
  ⟨by decide, by decide, by decide, by decide,
    (C13_statuses_do_not_change_control_flow vertexFailureEnv linkFailureEnv (by decide)
      (by decide) (by decide) (by decide)).1.1,
    (C13_statuses_do_not_change_control_flow vertexFailureEnv linkFailureEnv (by decide)
      (by decide) (by decide) (by decide)).2.1.2⟩

/-! ### Binding state of HelloTriangle at its draw calls -/

theorem glStep_of_fn (s : GLState) (c : Call) (h : c.fn ∉ bindingFns) : glStep s c = s := by
  rcases c with ⟨fn, args⟩
  cases fn <;> first | rfl | exact absurd (by simp [bindingFns]) h

theorem glStateAfter_of_fn (s : GLState) (l : List Call) (h : ∀ c ∈ l, c.fn ∉ bindingFns) :
    glStateAfter s l = s := by
  induction l with
  | nil => rfl
  | cons c cs ih =>
    rw [glStateAfter, List.foldl_cons, glStep_of_fn s c (h c (List.mem_cons_self _ _))]
    exact ih (fun x hx => h x (List.mem_cons_of_mem _ hx))

theorem glStateAfter_append (s : GLState) (a b : List Call) :
    glStateAfter s (a ++ b) = glStateAfter (glStateAfter s a) b :=
  List.foldl_append _ _ _ _

theorem drawStates_append (s : GLState) (l₁ l₂ : List Call) :
    drawStates s (l₁ ++ l₂) = drawStates s l₁ ++ drawStates (glStateAfter s l₁) l₂ := by
  induction l₁ generalizing s with
  | nil => rfl
  | cons c cs ih =>
    rw [List.cons_append]
    simp only [drawStates]
    rw [ih, List.append_assoc]
    rfl

theorem drawStates_nil_of_no_draw (s : GLState) (l : List Call)
    (h : ∀ c ∈ l, c.fn ≠ .glDrawElements) : drawStates s l = [] := by
  induction l generalizing s with
  | nil => rfl
  | cons c cs ih =>
    have hc : c.fn ≠ .glDrawElements := h c (List.mem_cons_self _ _)
    simp only [drawStates, hc, if_false, List.nil_append]
    exact ih _ (fun x hx => h x (List.mem_cons_of_mem _ hx))

theorem HelloTriangle_setup_state :
    (glStateAfter initialGL HelloTriangle.setupBuffers).arrayBuffer = none ∧
    (glStateAfter initialGL HelloTriangle.setupBuffers).vertexArray = none ∧
    HelloTriangle.Configured (glStateAfter initialGL HelloTriangle.setupBuffers) := by
  refine ⟨rfl, rfl, ?_, ?_, ?_, ?_, ?_⟩ <;> decide

theorem HelloTriangle_iteration_state (s : GLState) (f : Frame) :
    drawStates s (HelloTriangle.iteration f false).1 = [{ s with vertexArray := some .VAO }] ∧
    glStateAfter s (HelloTriangle.iteration f false).1 = { s with vertexArray := some .VAO } := by
  rcases f with ⟨esc, t, loc, rs, cl⟩
  cases esc <;> rcases rs with _ | ⟨w, h⟩ <;>
    simp [HelloTriangle.iteration, processInput, pollEvents, framebuffer_size_callback,
      drawStates, glStateAfter, glStep]

theorem HelloTriangle_loop_states (s : GLState) (hs : HelloTriangle.Configured s) (sc : Bool)
    (fs : List Frame) :
    ∀ x ∈ drawStates s (renderLoop HelloTriangle.iteration sc fs).1,
      x.vertexArray = some .VAO ∧ HelloTriangle.Configured x := by
  induction fs generalizing s sc with
  | nil => cases sc <;> simp [renderLoop, drawStates, shouldCloseTest]
  | cons f fs ih =>
    cases sc
    · intro x hx
      have h0 : glStateAfter s [shouldCloseTest] = s := rfl
      rw [renderLoop_cons, drawStates_append, drawStates_append, h0,
        (HelloTriangle_iteration_state s f).1, (HelloTriangle_iteration_state s f).2,
        List.mem_append, List.mem_append] at hx
      rcases hx with hx | hx | hx
      · simp [drawStates, shouldCloseTest] at hx
      · rw [List.mem_singleton.1 hx]
        exact ⟨rfl, hs⟩
      · exact ih { s with vertexArray := some .VAO } hs _ x hx
    · simp [renderLoop, drawStates, shouldCloseTest]

theorem drawStates_ne_nil (s : GLState) (l : List Call) (c : Call) (hc : c ∈ l)
    (hd : c.fn = .glDrawElements) : drawStates s l ≠ [] := by
  induction l generalizing s with
  | nil => exact absurd hc (List.not_mem_nil _)
  | cons x xs ih =>
    rcases List.mem_cons.1 hc with rfl | hx
    · simp [drawStates, hd]
    · intro h
      simp only [drawStates, List.append_eq_nil] at h
      exact ih _ hx h.2

theorem isElementBind_fn : ∀ c, isElementBind c = true → c.fn ∈ [Fn.glBindBuffer] := by
  intro c h
  simp only [isElementBind, Bool.and_eq_true, beq_iff_eq] at h
  simp [h.1]

theorem HelloTriangle_beforeLoop_state (env : Env) :
    glStateAfter initialGL (HelloTriangle.beforeLoop env)
      = glStateAfter initialGL HelloTriangle.setupBuffers := by
  have hkey : ∀ x ∈ preludeFns ++ buildFns, x ∉ bindingFns := by decide
  rw [HelloTriangle.beforeLoop, glStateAfter_append, glStateAfter_append,
    glStateAfter_of_fn initialGL _ (fun c hc => hkey _
      (List.mem_append_left _ (prelude_fns env.apple c hc))),
    glStateAfter_of_fn initialGL _ (fun c hc => hkey _
      (List.mem_append_right _ (build_fns env c hc)))]

theorem HelloTriangle_beforeLoop_no_draw (env : Env) :
    ∀ c ∈ HelloTriangle.beforeLoop env, c.fn ≠ .glDrawElements := by
  have hkey : ∀ x ∈ preludeFns ++ buildFns, x ≠ Fn.glDrawElements := by decide
  intro c hc
  rw [HelloTriangle.beforeLoop] at hc
  rcases List.mem_append.1 hc with hc | hc
  · rcases List.mem_append.1 hc with hc | hc
    · exact hkey _ (List.mem_append_left _ (prelude_fns env.apple c hc))
    · exact hkey _ (List.mem_append_right _ (build_fns env c hc))
  · have hsb : ∀ d ∈ HelloTriangle.setupBuffers, d.fn ≠ .glDrawElements := by decide
    exact hsb c hc

/-- C14: in HelloTriangle, over the binding-state model `glStep`, in every run
that gets past window creation and loader initialization: after the setup the
array-buffer binding and the vertex-array binding are both 0, yet at every
`glDrawElements` call the bound vertex array is `VAO`, its recorded element
buffer is `EBO` holding the 6 uploaded indices, and attribute 0 is enabled and
sourced from `VBO` holding the 12 uploaded floats; the only `glBindBuffer` call on
`GL_ELEMENT_ARRAY_BUFFER` in the whole run is the one binding `EBO`, so the
element buffer is never unbound; and with at least one frame supplied a draw
call is issued. -/
theorem C14_binding_state_at_draws (env : Env)
    (hw : env.windowOk = true) (hg : env.gladOk = true) :
    (∃ rest, (HelloTriangle.main env).trace = HelloTriangle.beforeLoop env ++ rest) ∧
    (glStateAfter initialGL (HelloTriangle.beforeLoop env)).arrayBuffer = none ∧
    (glStateAfter initialGL (HelloTriangle.beforeLoop env)).vertexArray = none ∧
    (∀ s ∈ drawStates initialGL (HelloTriangle.main env).trace,
      s.vertexArray = some .VAO ∧
      s.elementBuffer .VAO = some .EBO ∧
      s.bufferData .EBO = some (.indices, 6 * sizeofUInt) ∧
      s.attribEnabled .VAO 0 = true ∧
      s.attribSource .VAO 0 = some .VBO ∧
      s.bufferData .VBO = some (.vertices, 12 * sizeofFloat)) ∧
    (HelloTriangle.main env).trace.filter isElementBind
      = [⟨.glBindBuffer, [.const .GL_ELEMENT_ARRAY_BUFFER, .val .EBO]⟩] ∧
    unbindElementBuffer ∉ (HelloTriangle.main env).trace ∧
    (env.frames ≠ [] → drawStates initialGL (HelloTriangle.main env).trace ≠ []) := by
  have htrace : (HelloTriangle.main env).trace = HelloTriangle.beforeLoop env
      ++ ((renderLoop HelloTriangle.iteration false env.frames).1
          ++ (if (renderLoop HelloTriangle.iteration false env.frames).2
                then HelloTriangle.teardown else [])) := by
    rw [HelloTriangle_trace env hw hg, HelloTriangle.beforeLoop, List.append_assoc]
  have hstate := HelloTriangle_beforeLoop_state env
  obtain ⟨ha, hv, hconf⟩ := HelloTriangle_setup_state
  have hfilter : (HelloTriangle.main env).trace.filter isElementBind
      = [⟨.glBindBuffer, [.const .GL_ELEMENT_ARRAY_BUFFER, .val .EBO]⟩] := by
    have h1 := filter_nil_of_fn (prelude_fns env.apple) isElementBind isElementBind_fn
      (by decide)
    have h2 := filter_nil_of_fn (build_fns env) isElementBind isElementBind_fn (by decide)
    have h3 : HelloTriangle.setupBuffers.filter isElementBind
        = [⟨.glBindBuffer, [.const .GL_ELEMENT_ARRAY_BUFFER, .val .EBO]⟩] := by decide
    have h4 := filter_nil_of_fn
      (fun c hc => (HelloTriangle_loop_fns false env.frames c hc).1)
      isElementBind isElementBind_fn (by decide)
    have h5 : (if (renderLoop HelloTriangle.iteration false env.frames).2
        then HelloTriangle.teardown else []).filter isElementBind = [] := by
      cases (renderLoop HelloTriangle.iteration false env.frames).2 <;> decide
    rw [HelloTriangle_trace env hw hg]
    simp only [List.filter_append, h1, h2, h3, h4, h5, List.nil_append, List.append_nil]
  refine ⟨⟨_, htrace⟩, by rw [hstate]; exact ha, by rw [hstate]; exact hv, ?_, hfilter, ?_, ?_⟩
  · intro s hs
    rw [htrace, drawStates_append, drawStates_nil_of_no_draw _ _
      (HelloTriangle_beforeLoop_no_draw env), List.nil_append, hstate, drawStates_append,
      List.mem_append] at hs
    rcases hs with hs | hs
    · obtain ⟨h1, h2, h3, h4, h5, h6⟩ := HelloTriangle_loop_states _ hconf _ _ s hs
      exact ⟨h1, h2, h3, h4, h5, h6⟩
    · rw [drawStates_nil_of_no_draw] at hs
      · exact absurd hs (List.not_mem_nil _)
      · cases (renderLoop HelloTriangle.iteration false env.frames).2 <;> decide
  · intro hmem
    have : unbindElementBuffer ∈ (HelloTriangle.main env).trace.filter isElementBind :=
      List.mem_filter.2 ⟨hmem, by decide⟩
    rw [hfilter] at this
    revert this
    decide
  · intro hfs
    have hd : drawElements ∈ (HelloTriangle.main env).trace := by
      rw [htrace]
      refine List.mem_append_right _ (List.mem_append_left _ ?_)
      exact (List.singleton_sublist.1
        (List.Sublist.trans (by decide) (HelloTriangle_loop_draws hfs)))
    exact drawStates_ne_nil _ _ _ hd rfl

/-- Witness of `C14_binding_state_at_draws` on a run of one frame. -/
theorem C14_binding_state_witness :
    normalCloseEnv.windowOk = true ∧ normalCloseEnv.gladOk = true ∧
    (HelloTriangle.main normalCloseEnv).trace.filter isElementBind
      = [⟨.glBindBuffer, [.const .GL_ELEMENT_ARRAY_BUFFER, .val .EBO]⟩] ∧
    drawStates initialGL (HelloTriangle.main normalCloseEnv).trace ≠ [] :=
  ⟨by decide, by decide,
    (C14_binding_state_at_draws normalCloseEnv (by decide) (by decide)).2.2.2.2.1,
    (C14_binding_state_at_draws normalCloseEnv (by decide) (by decide)).2.2.2.2.2.2
      (by decide)⟩

/-! ### The vertex tables -/

theorem texturepart1_positions :
    texturepart1.position 0 = (1/2, 1/2) ∧ texturepart1.position 1 = (1/2, -1/2) ∧
    texturepart1.position 2 = (-1/2, -1/2) ∧ texturepart1.position 3 = (-1/2, 1/2) := by
  refine ⟨rfl, rfl, rfl, rfl⟩

theorem texturepart1_texCoords :
    texturepart1.texCoord 0 = (1, 1) ∧ texturepart1.texCoord 1 = (1, 0) ∧
    texturepart1.texCoord 2 = (0, 0) ∧ texturepart1.texCoord 3 = (0, 1) := by
  refine ⟨rfl, rfl, rfl, rfl⟩

/-- C15: in the vertex table of texturepart1 (4 records of 8 floats), the texture
coordinate of every vertex equals its position's (x + 0.5, y + 0.5); every
texture coordinate component lies in [0, 1]; the bottom-left vertex (index 2)
maps to (0, 0) and the bottom-right vertex (index 1) to (1, 0); and the four
vertices, which are pairwise distinct, are mapped one-to-one onto the four
corners (0,0), (1,0), (1,1), (0,1) of the texture. -/
theorem C15_texture_coordinates :
    texturepart1.vertices.length = 4 * 8 ∧
    (∀ i : Fin 4, texturepart1.texCoord i
        = ((texturepart1.position i).1 + 1/2, (texturepart1.position i).2 + 1/2)) ∧
    (∀ i : Fin 4, 0 ≤ (texturepart1.texCoord i).1 ∧ (texturepart1.texCoord i).1 ≤ 1 ∧
        0 ≤ (texturepart1.texCoord i).2 ∧ (texturepart1.texCoord i).2 ≤ 1) ∧
    (texturepart1.position 2 = (-1/2, -1/2) ∧ texturepart1.texCoord 2 = (0, 0)) ∧
    (texturepart1.position 1 = (1/2, -1/2) ∧ texturepart1.texCoord 1 = (1, 0)) ∧
    (∀ i j : Fin 4, texturepart1.position i = texturepart1.position j ↔ i = j) ∧
    (∀ i j : Fin 4, texturepart1.texCoord i = texturepart1.texCoord j ↔ i = j) ∧
    (∀ c : ℚ × ℚ, (c = (0, 0) ∨ c = (1, 0) ∨ c = (1, 1) ∨ c = (0, 1))
        ↔ ∃ i : Fin 4, texturepart1.texCoord i = c) := by
  obtain ⟨p0, p1, p2, p3⟩ := texturepart1_positions
  obtain ⟨t0, t1, t2, t3⟩ := texturepart1_texCoords
  refine ⟨rfl, ?_, ?_, ⟨p2, t2⟩, ⟨p1, t1⟩, ?_, ?_, ?_⟩
  · intro i
    fin_cases i <;> simp only [Fin.zero_eta, Fin.mk_one, Fin.reduceFinMk, Fin.val_zero,
      Fin.val_one, Fin.val_two, Fin.isValue, p0, p1, p2, p3, t0, t1, t2, t3] <;> norm_num
  · intro i
    fin_cases i <;> simp only [Fin.zero_eta, Fin.mk_one, Fin.reduceFinMk, Fin.val_zero,
      Fin.val_one, Fin.val_two, Fin.isValue, t0, t1, t2, t3] <;> norm_num
  · intro i j
    fin_cases i <;> fin_cases j <;> simp only [Fin.zero_eta, Fin.mk_one, Fin.reduceFinMk,
      Fin.val_zero, Fin.val_one, Fin.val_two, Fin.isValue, p0, p1, p2, p3] <;>
      (try norm_num) <;> decide
  · intro i j
    fin_cases i <;> fin_cases j <;> simp only [Fin.zero_eta, Fin.mk_one, Fin.reduceFinMk,
      Fin.val_zero, Fin.val_one, Fin.val_two, Fin.isValue, t0, t1, t2, t3] <;>
      (try norm_num) <;> decide
  · intro c
    constructor
    · rintro (rfl | rfl | rfl | rfl)
      · exact ⟨2, t2⟩
      · exact ⟨1, t1⟩
      · exact ⟨0, t0⟩
      · exact ⟨3, t3⟩
    · rintro ⟨i, rfl⟩
      fin_cases i
      · exact Or.inr (Or.inr (Or.inl t0))
      · exact Or.inr (Or.inl t1)
      · exact Or.inl t2
      · exact Or.inr (Or.inr (Or.inr t3))

/-- C16 (code as written): the upload call of texturepart1 always declares
`3 * width * height` bytes at `data`, whatever channel count the decoder
reported, so it matches the decoded buffer exactly when the image has three
channels (or no pixels).  For a 2 x 2 greyscale image the run issues the upload
with 12 declared bytes on a 4-byte buffer; for a 2 x 2 image with alpha it
declares 12 of the 16 bytes. -/
theorem C16_upload_ignores_channel_count :
    (∀ img : Image, uploadReadBytes (uploadImage img) = 3 * img.width * img.height) ∧
    (∀ img : Image, uploadReadBytes (uploadImage img) = decodedBytes img
        ↔ (img.nrChannels = 3 ∨ img.width = 0 ∨ img.height = 0)) ∧
    uploadImage greyImage ∈ (texturepart1.main greyImageEnv).trace ∧
    uploadReadBytes (uploadImage greyImage) = 12 ∧ decodedBytes greyImage = 4 ∧
    uploadReadBytes (uploadImage alphaImage) = 12 ∧ decodedBytes alphaImage = 16 := by
  refine ⟨?_, ?_, by decide, by decide, by decide, by decide, by decide⟩
  · intro img
    simp only [uploadReadBytes, uploadImage, componentsPerPixel, bytesPerComponent]
    ring
  · intro img
    simp only [uploadReadBytes, uploadImage, componentsPerPixel, bytesPerComponent,
      decodedBytes, mul_one]
    constructor
    · intro h
      by_cases hw : img.width = 0
      · exact Or.inr (Or.inl hw)
      · by_cases hh : img.height = 0
        · exact Or.inr (Or.inr hh)
        · left
          have hwh : img.width * img.height ≠ 0 := mul_ne_zero hw hh
          exact (mul_left_cancel₀ hwh h).symm
    · rintro (h | h | h) <;> simp [h]

/-- C17: every vertex fetch of the per-frame draw call stays inside the uploaded
vertex array.  HelloTriangle and texturepart1 draw 6 indices, the length of
their index arrays, and for every fetched index and every enabled attribute the
fetch ends within the 12 floats (one attribute (0,3), stride 3) respectively the
32 floats (attributes (0,3), (3,3), (6,2), stride 8, which read the positions
0..7 of a record each exactly once); ShadersPart1 draws vertices 0, 1, 2 with one
attribute (0,3), stride 3, within its 9 floats. -/
theorem C17_vertex_fetches_in_bounds :
    (drawCount drawElements = HelloTriangle.indices.length ∧
      fetchedIndices drawElements HelloTriangle.indices = HelloTriangle.indices ∧
      enabledAttribs HelloTriangle.setupBuffers = [⟨0, 3, 3⟩] ∧
      HelloTriangle.vertices.length = 12 ∧
      ∀ i ∈ fetchedIndices drawElements HelloTriangle.indices,
        ∀ a ∈ enabledAttribs HelloTriangle.setupBuffers,
          fetchInside HelloTriangle.vertices.length i a = true) ∧
    (drawCount drawElements = texturepart1.indices.length ∧
      fetchedIndices drawElements texturepart1.indices = texturepart1.indices ∧
      enabledAttribs texturepart1.setupBuffers = [⟨0, 3, 8⟩, ⟨3, 3, 8⟩, ⟨6, 2, 8⟩] ∧
      texturepart1.vertices.length = 32 ∧
      coveredFloats (enabledAttribs texturepart1.setupBuffers) = List.range 8 ∧
      ∀ i ∈ fetchedIndices drawElements texturepart1.indices,
        ∀ a ∈ enabledAttribs texturepart1.setupBuffers,
          fetchInside texturepart1.vertices.length i a = true) ∧
    (fetchedVertices drawArrays = [0, 1, 2] ∧
      enabledAttribs ShadersPart1.setupBuffers = [⟨0, 3, 3⟩] ∧
      ShadersPart1.vertices.length = 9 ∧
      ∀ i ∈ fetchedVertices drawArrays,
        ∀ a ∈ enabledAttribs ShadersPart1.setupBuffers,
          fetchInside ShadersPart1.vertices.length i a = true) := by
  refine ⟨⟨by decide, by decide, by decide, rfl, by decide⟩,
    ⟨by decide, by decide, by decide, rfl, by decide, by decide⟩,
    ⟨by decide, by decide, rfl, by decide⟩⟩

theorem HelloTriangle_positions :
    HelloTriangle.position 0 = (1/2, 1/2) ∧ HelloTriangle.position 1 = (1/2, -1/2) ∧
    HelloTriangle.position 2 = (-1/2, -1/2) ∧ HelloTriangle.position 3 = (-1/2, 1/2) := by
  refine ⟨rfl, rfl, rfl, rfl⟩

/-- The facts of C18 for any position table with the four corner values. -/
theorem quad_tiling (P : Nat → ℚ × ℚ) (h0 : P 0 = (1/2, 1/2)) (h1 : P 1 = (1/2, -1/2))
    (h2 : P 2 = (-1/2, -1/2)) (h3 : P 3 = (-1/2, 1/2)) :
    signedArea2 (P 0) (P 1) (P 3) = -1 ∧ signedArea2 (P 1) (P 2) (P 3) = -1 ∧
    signedArea2 (P 1) (P 3) (P 0) < 0 ∧ 0 < signedArea2 (P 1) (P 3) (P 2) ∧
    triangleArea (P 0) (P 1) (P 3) + triangleArea (P 1) (P 2) (P 3)
      = (1/2 - (-1/2)) * (1/2 - (-1/2)) ∧
    (∀ c : ℚ × ℚ, (c = (-1/2, -1/2) ∨ c = (1/2, -1/2) ∨ c = (1/2, 1/2) ∨ c = (-1/2, 1/2))
        ↔ ∃ i : Fin 4, P i = c) := by
  refine ⟨?_, ?_, ?_, ?_, ?_, ?_⟩
  · rw [h0, h1, h3]; norm_num [signedArea2]
  · rw [h1, h2, h3]; norm_num [signedArea2]
  · rw [h0, h1, h3]; norm_num [signedArea2]
  · rw [h1, h2, h3]; norm_num [signedArea2]
  · rw [h0, h1, h2, h3]; norm_num [triangleArea, signedArea2]
  · intro c
    constructor
    · rintro (rfl | rfl | rfl | rfl)
      · exact ⟨2, h2⟩
      · exact ⟨1, h1⟩
      · exact ⟨0, h0⟩
      · exact ⟨3, h3⟩
    · rintro ⟨i, rfl⟩
      fin_cases i
      · exact Or.inr (Or.inr (Or.inl h0))
      · exact Or.inr (Or.inl h1)
      · exact Or.inl h2
      · exact Or.inr (Or.inr (Or.inr h3))

/-- C18: in HelloTriangle and texturepart1, with the xy positions of the four
vertices as exact rationals, the index array describes the triangles (0,1,3) and
(1,2,3); both are non-degenerate with the same (clockwise) orientation; their
common vertices are exactly 1 and 3, and vertices 0 and 2 lie strictly on
opposite sides of the line through vertices 1 and 3; their areas sum to 1, the
area of the square [-0.5, 0.5] x [-0.5, 0.5]; and the four vertices are exactly
the four corners of that square. -/
theorem C18_triangles_tile_quad (P : Nat → ℚ × ℚ)
    (hP : P = HelloTriangle.position ∨ P = texturepart1.position) :
    (texturepart1.indices = HelloTriangle.indices ∧
      triangle HelloTriangle.indices 0 = (0, 1, 3) ∧
      triangle HelloTriangle.indices 1 = (1, 2, 3)) ∧
    (signedArea2 (P 0) (P 1) (P 3) ≠ 0 ∧ signedArea2 (P 1) (P 2) (P 3) ≠ 0 ∧
      0 < signedArea2 (P 0) (P 1) (P 3) * signedArea2 (P 1) (P 2) (P 3)) ∧
    ((HelloTriangle.indices.take 3).filter
        (fun v => decide (v ∈ (HelloTriangle.indices.drop 3).take 3)) = [1, 3] ∧
      signedArea2 (P 1) (P 3) (P 0) < 0 ∧ 0 < signedArea2 (P 1) (P 3) (P 2)) ∧
    triangleArea (P 0) (P 1) (P 3) + triangleArea (P 1) (P 2) (P 3)
      = (1/2 - (-1/2)) * (1/2 - (-1/2)) ∧
    (∀ c : ℚ × ℚ, (c = (-1/2, -1/2) ∨ c = (1/2, -1/2) ∨ c = (1/2, 1/2) ∨ c = (-1/2, 1/2))
        ↔ ∃ i : Fin 4, P i = c) := by
  have hvals : P 0 = (1/2, 1/2) ∧ P 1 = (1/2, -1/2) ∧ P 2 = (-1/2, -1/2)
      ∧ P 3 = (-1/2, 1/2) := by
    rcases hP with rfl | rfl
    · exact HelloTriangle_positions
    · exact texturepart1_positions
  obtain ⟨h0, h1, h2, h3⟩ := hvals
  obtain ⟨a1, a2, s0, s2, hsum, hcorners⟩ := quad_tiling P h0 h1 h2 h3
  refine ⟨⟨rfl, rfl, rfl⟩, ⟨?_, ?_, ?_⟩, ⟨by decide, s0, s2⟩, hsum, hcorners⟩
  · rw [a1]; norm_num
  · rw [a2]; norm_num
  · rw [a1, a2]; norm_num

/-- Witness of `C18_triangles_tile_quad` on the vertex table of HelloTriangle. -/
theorem C18_triangles_witness :
    signedArea2 (HelloTriangle.position 0) (HelloTriangle.position 1)
        (HelloTriangle.position 3) ≠ 0 ∧
    triangleArea (HelloTriangle.position 0) (HelloTriangle.position 1)
        (HelloTriangle.position 3)
      + triangleArea (HelloTriangle.position 1) (HelloTriangle.position 2)
        (HelloTriangle.position 3)
      = (1/2 - (-1/2)) * (1/2 - (-1/2)) :=
  ⟨(C18_triangles_tile_quad HelloTriangle.position (Or.inl rfl)).2.1.1,
    (C18_triangles_tile_quad HelloTriangle.position (Or.inl rfl)).2.2.2.1⟩

end ModernOpenGL
